import Mathlib

/-!
# EOS tools (`eos-ls.c`, `eos-make-image.c`, `eos_fs.h`): a shallow embedding

Bytes are natural numbers, the directory buffer `buf`, a disk image and a C
string (without its terminating NUL) are lists of bytes.  C `int` arithmetic
is carried out in `Int` and brought back to 32 bits by `wrap_int32`; a
conversion to an unsigned 32-bit value is `to_uint32`, and `uint32_t`
arithmetic is taken modulo 2^32.  Standard output is the list of bytes
written.  A read outside the directory buffer has no defined result in C: it
is an `Except.error` carrying the offending index.  The loops of the loaders
run on fuel; `none` stands for fuel that ran out, which never happens.
-/

namespace EosTools

/-! ## Constants of `eos-ls.c` and `eos_fs.h` -/

/-- Size of the directory buffer: `#define BUF_SIZE 7168`. -/
def BUF_SIZE : Nat := 7168
/-- Floppy sector size: `#define DISK_SECTOR_SIZE 512`. -/
def DISK_SECTOR_SIZE : Nat := 512
/-- AdamNet block size: `#define BLOCK_SIZE 1024`. -/
def BLOCK_SIZE : Nat := 1024
/-- Sector skew: `#define INTERLEAVE 5`. -/
def INTERLEAVE : Nat := 5
/-- Width of the file name field: `#define EOS_FILENAME_LEN 12`. -/
def EOS_FILENAME_LEN : Nat := 12

/-- Attribute mask `ENTRY_ATTRIBUTE_BLOCKS_LEFT`. -/
def ENTRY_ATTRIBUTE_BLOCKS_LEFT : Nat := 0x01
/-- Attribute mask `ENTRY_ATTRIBUTE_EXEC_PROTECT`. -/
def ENTRY_ATTRIBUTE_EXEC_PROTECT : Nat := 0x02
/-- Attribute mask `ENTRY_ATTRIBUTE_DELETED`. -/
def ENTRY_ATTRIBUTE_DELETED : Nat := 0x04
/-- Attribute mask `ENTRY_ATTRIBUTE_SYSTEM_FILE`. -/
def ENTRY_ATTRIBUTE_SYSTEM_FILE : Nat := 0x08
/-- Attribute mask `ENTRY_ATTRIBUTE_USER_FILE`. -/
def ENTRY_ATTRIBUTE_USER_FILE : Nat := 0x10
/-- Attribute mask `ENTRY_ATTRIBUTE_READ_PROTECT`. -/
def ENTRY_ATTRIBUTE_READ_PROTECT : Nat := 0x20
/-- Attribute mask `ENTRY_ATTRIBUTE_WRITE_PROTECT`. -/
def ENTRY_ATTRIBUTE_WRITE_PROTECT : Nat := 0x40
/-- Attribute mask `ENTRY_ATTRIBUTE_LOCKED`. -/
def ENTRY_ATTRIBUTE_LOCKED : Nat := 0x80

/-! ## Machine integers -/

/-- Two's complement reduction of an exact integer to a 32-bit C `int`. -/
def wrap_int32 (x : Int) : Int := (x + 2147483648) % 4294967296 - 2147483648

/-- Conversion of a C `int` to `uint32_t` (also what `%u` prints of it). -/
def to_uint32 (x : Int) : Nat := (x % 4294967296).toNat

/-- Value of a `uint8_t` counter after `blockNum++`. -/
def incr_uint8 (n : Nat) : Nat := (n + 1) % 256

/-! ## Sector translation (`read_directory_sectors_dsk`, lines 129-170) -/

/-- The `int` expression `blockNum * BLOCK_SIZE`. -/
def dsk_o1_int (blockNum : Nat) : Int :=
  wrap_int32 ((blockNum : Int) * (BLOCK_SIZE : Int))

/-- The `int` expression assigned to `o2`, before its conversion to
`uint32_t`: `r` is `blockNum % 4`. -/
def dsk_o2_int (blockNum : Nat) : Int :=
  let r : Int := (blockNum : Int) % 4
  if r = 0 ∨ r = 1 then
    wrap_int32 (wrap_int32 ((blockNum : Int) * (BLOCK_SIZE : Int))
      + wrap_int32 ((INTERLEAVE : Int) * 512))
  else
    wrap_int32 (wrap_int32 ((blockNum : Int) * (BLOCK_SIZE : Int))
      - wrap_int32 (4096 - wrap_int32 ((INTERLEAVE : Int) * 512)))

/-- The `uint32_t` primary offset `o1`. -/
def dsk_o1 (blockNum : Nat) : Nat := to_uint32 (dsk_o1_int blockNum)

/-- The `uint32_t` secondary offset `o2`. -/
def dsk_o2 (blockNum : Nat) : Nat := to_uint32 (dsk_o2_int blockNum)

/-! ## The image file -/

/-- Bytes delivered by `fseek(fp,o,SEEK_SET)` followed by
`fread(...,sizeof(uint8_t),n,fp)` on a regular file holding `image`: the
`n` bytes at offset `o`, fewer when the file ends before `o + n`. -/
def fread_at (image : List Nat) (o n : Nat) : List Nat :=
  (image.drop o).take n

/-- The directory buffer after `fread` has stored `data` at `&buf[l]`. -/
def store (buf : List Nat) (l : Nat) (data : List Nat) : List Nat :=
  buf.take l ++ data ++ buf.drop (l + data.length)

/-- Outcome of a loader: its return value, the directory buffer it leaves,
and the block number of its `printf("Block #%u\n",blockNum)` diagnostic. -/
structure LoadResult where
  ok : Bool
  buf : List Nat
  block : Option Nat
deriving DecidableEq

/-- The `for` loop of `read_directory_sectors_dsk` entered with the given
`blockNum` and write position `l`.  The body ends in `blockNum++` and the
loop header adds its own `blockNum++`.  Each iteration uses one unit of
`fuel`; `none` means the fuel ran out. -/
def read_directory_sectors_dsk_loop (image : List Nat) :
    Nat → Nat → Nat → List Nat → Option LoadResult
  | 0, _, _, _ => none
  | fuel + 1, blockNum, l, buf =>
    if blockNum < 8 then
      let o1 := dsk_o1 blockNum
      let o2 := dsk_o2 blockNum
      let upper := fread_at image o1 DISK_SECTOR_SIZE
      let buf1 := store buf l upper
      if upper.length ≠ DISK_SECTOR_SIZE then
        some (LoadResult.mk false buf1 (some blockNum))
      else
        let l1 := l + DISK_SECTOR_SIZE
        let lower := fread_at image o2 DISK_SECTOR_SIZE
        let buf2 := store buf1 l1 lower
        if lower.length ≠ DISK_SECTOR_SIZE then
          some (LoadResult.mk false buf2 (some blockNum))
        else
          let l2 := l1 + DISK_SECTOR_SIZE
          read_directory_sectors_dsk_loop image fuel (incr_uint8 (incr_uint8 blockNum)) l2 buf2
    else
      some (LoadResult.mk true buf none)

/-- Function `read_directory_sectors_dsk` (lines 129-170): `l = 0`,
`blockNum = 1`; the counter only grows and stays below 8 inside the loop, so
8 units of fuel are enough. -/
def read_directory_sectors_dsk (image buf : List Nat) : Option LoadResult :=
  read_directory_sectors_dsk_loop image 8 1 0 buf

/-- The `for` loop of `read_directory_sectors_ddp` entered with the given
`blockNum` and write position `l`; as in the interleaved loader the body
ends in `blockNum++` and the header increments once more. -/
def read_directory_sectors_ddp_loop (image : List Nat) :
    Nat → Nat → Nat → List Nat → Option LoadResult
  | 0, _, _, _ => none
  | fuel + 1, blockNum, l, buf =>
    if blockNum < 8 then
      let o := blockNum * BLOCK_SIZE
      let data := fread_at image o BLOCK_SIZE
      let buf1 := store buf l data
      if data.length ≠ BLOCK_SIZE then
        some (LoadResult.mk false buf1 (some blockNum))
      else
        read_directory_sectors_ddp_loop image fuel (incr_uint8 (incr_uint8 blockNum))
          (l + BLOCK_SIZE) buf1
    else
      some (LoadResult.mk true buf none)

/-- Function `read_directory_sectors_ddp` (lines 177-199). -/
def read_directory_sectors_ddp (image buf : List Nat) : Option LoadResult :=
  read_directory_sectors_ddp_loop image 8 1 0 buf

/-! ## The packed record `DirectoryEntry` of `eos_fs.h` -/

/-- The members of `struct _directoryEntry`, in declaration order. -/
inductive Field
  | filename | attributes | start_block | allocated_blocks | blocks_used
  | last_block_bytes_used | year | month | day
deriving DecidableEq

/-- Members in declaration order. -/
def Field.all : List Field :=
  [.filename, .attributes, .start_block, .allocated_blocks, .blocks_used,
   .last_block_bytes_used, .year, .month, .day]

/-- Size in bytes of each member: `uint8_t[EOS_FILENAME_LEN]`, `uint8_t`,
`uint32_t`, `uint16_t`. -/
def Field.width : Field → Nat
  | .filename => EOS_FILENAME_LEN
  | .attributes => 1
  | .start_block => 4
  | .allocated_blocks => 2
  | .blocks_used => 2
  | .last_block_bytes_used => 2
  | .year => 1
  | .month => 1
  | .day => 1

/-- Size of the packed struct: members follow each other without padding. -/
def sizeof_DirectoryEntry : Nat := (Field.all.map Field.width).sum

/-- Byte offset of a member in the packed struct: the widths of the members
declared before it. -/
def offsetof (f : Field) : Nat :=
  ((Field.all.takeWhile (fun g => decide (g ≠ f))).map Field.width).sum

/-- Address (buffer index) of `d + i` for `d = (DirectoryEntry *)buf`. -/
def slot_offset (i : Nat) : Nat := i * sizeof_DirectoryEntry

/-! ## Reading the directory buffer -/

/-- One byte of `buf`; an index outside the array is an error. -/
def read_u8 (buf : List Nat) (i : Nat) : Except Nat Nat :=
  if h : i < buf.length then .ok buf[i] else .error i

/-- A `uint16_t` member at index `i` (little-endian host). -/
def read_u16 (buf : List Nat) (i : Nat) : Except Nat Nat :=
  match read_u8 buf i with
  | .error e => .error e
  | .ok b0 =>
    match read_u8 buf (i + 1) with
    | .error e => .error e
    | .ok b1 => .ok (b0 + 256 * b1)

/-- A `uint32_t` member at index `i` (little-endian host). -/
def read_u32 (buf : List Nat) (i : Nat) : Except Nat Nat :=
  match read_u16 buf i with
  | .error e => .error e
  | .ok w0 =>
    match read_u16 buf (i + 2) with
    | .error e => .error e
    | .ok w1 => .ok (w0 + 65536 * w1)

/-- The test `(a & mask) == mask` on an attribute byte. -/
def attr_test (a mask : Nat) : Bool := (a &&& mask) == mask

/-- Function `entry_is_blocks_left` for the entry at buffer index `d`. -/
def entry_is_blocks_left (buf : List Nat) (d : Nat) : Except Nat Bool :=
  (read_u8 buf (d + offsetof .attributes)).map (attr_test · ENTRY_ATTRIBUTE_BLOCKS_LEFT)

/-- Function `entry_is_exec_protect`. -/
def entry_is_exec_protect (buf : List Nat) (d : Nat) : Except Nat Bool :=
  (read_u8 buf (d + offsetof .attributes)).map (attr_test · ENTRY_ATTRIBUTE_EXEC_PROTECT)

/-- Function `entry_is_deleted`. -/
def entry_is_deleted (buf : List Nat) (d : Nat) : Except Nat Bool :=
  (read_u8 buf (d + offsetof .attributes)).map (attr_test · ENTRY_ATTRIBUTE_DELETED)

/-- Function `entry_is_system_file`. -/
def entry_is_system_file (buf : List Nat) (d : Nat) : Except Nat Bool :=
  (read_u8 buf (d + offsetof .attributes)).map (attr_test · ENTRY_ATTRIBUTE_SYSTEM_FILE)

/-- Function `entry_is_user_file`. -/
def entry_is_user_file (buf : List Nat) (d : Nat) : Except Nat Bool :=
  (read_u8 buf (d + offsetof .attributes)).map (attr_test · ENTRY_ATTRIBUTE_USER_FILE)

/-- Function `entry_is_read_protected`. -/
def entry_is_read_protected (buf : List Nat) (d : Nat) : Except Nat Bool :=
  (read_u8 buf (d + offsetof .attributes)).map (attr_test · ENTRY_ATTRIBUTE_READ_PROTECT)

/-- Function `entry_is_write_protected`. -/
def entry_is_write_protected (buf : List Nat) (d : Nat) : Except Nat Bool :=
  (read_u8 buf (d + offsetof .attributes)).map (attr_test · ENTRY_ATTRIBUTE_WRITE_PROTECT)

/-- Function `entry_is_locked`. -/
def entry_is_locked (buf : List Nat) (d : Nat) : Except Nat Bool :=
  (read_u8 buf (d + offsetof .attributes)).map (attr_test · ENTRY_ATTRIBUTE_LOCKED)

/-! ## Standard output -/

/-- Decimal digits of `n` as character codes. -/
def decimal (n : Nat) : List Nat := (Nat.toDigits 10 n).map Char.toNat

/-- Right-justified field of width `w` filled with the character `c`. -/
def pad_left (w c : Nat) (s : List Nat) : List Nat :=
  List.replicate (w - s.length) c ++ s

/-- Left-justified field of width `w` filled with blanks. -/
def pad_right (w : Nat) (s : List Nat) : List Nat :=
  s ++ List.replicate (w - s.length) 32

/-- Conversions `%5u`, `%10u` and `%10lu` of `printf`. -/
def fmt_u (w n : Nat) : List Nat := pad_left w 32 (decimal n)

/-- Conversion `%-5u` of `printf`. -/
def fmt_u_left (w n : Nat) : List Nat := pad_right w (decimal n)

/-- Conversion `%02u` of `printf`. -/
def fmt_02u (n : Nat) : List Nat := pad_left 2 48 (decimal n)

/-- The `while (*p != 0x03) putchar(*p++);` loop of `eos_ls_filename` with
`p` at buffer index `p` and `out` written so far.  The byte is compared as a
`char` with 3 and written back by `putchar` as an `unsigned char`, which
leaves the byte value as read. -/
def eos_ls_filename_loop (buf : List Nat) (p : Nat) (out : List Nat) :
    Except Nat (List Nat) :=
  if h : p < buf.length then
    if buf[p] ≠ 0x03 then eos_ls_filename_loop buf (p + 1) (out ++ [buf[p]])
    else .ok out
  else .error p
termination_by buf.length - p

/-- Function `eos_ls_filename` (lines 220-228): `p = d->filename`. -/
def eos_ls_filename (buf : List Nat) (d : Nat) (out : List Nat) :
    Except Nat (List Nat) :=
  eos_ls_filename_loop buf (d + offsetof .filename) out

/-- The first argument of `printf(" %5u / %-5u ",...)`:
`((d->blocks_used - 1)*BLOCK_SIZE) + d->last_block_bytes_used`, an `int`
after the integer promotions. -/
def used_bytes_int (blocks_used last_block_bytes_used : Nat) : Int :=
  wrap_int32 (wrap_int32 (wrap_int32 ((blocks_used : Int) - 1) * (BLOCK_SIZE : Int))
    + (last_block_bytes_used : Int))

/-- The used-byte figure as `%5u` prints it. -/
def used_bytes_printed (blocks_used last_block_bytes_used : Nat) : Nat :=
  to_uint32 (used_bytes_int blocks_used last_block_bytes_used)

/-- The `int` expression `d->allocated_blocks * BLOCK_SIZE` as `%u` prints
it. -/
def allocated_bytes_printed (allocated_blocks : Nat) : Nat :=
  to_uint32 (wrap_int32 ((allocated_blocks : Int) * (BLOCK_SIZE : Int)))

/-- One character of the flag mask: `putchar(c)` when the test holds,
`putchar('-')` otherwise. -/
def flag_char (set : Bool) (c : Nat) : Nat := if set then c else 45

/-- The eight `if (entry_is_...(d)) putchar(..) else putchar('-')` statements
of `eos_ls_verbose` (lines 237-275). -/
def eos_ls_flags (buf : List Nat) (d : Nat) : Except Nat (List Nat) := do
  let l ← entry_is_blocks_left buf d
  let x ← entry_is_exec_protect buf d
  let dl ← entry_is_deleted buf d
  let s ← entry_is_system_file buf d
  let u ← entry_is_user_file buf d
  let r ← entry_is_read_protected buf d
  let w ← entry_is_write_protected buf d
  let k ← entry_is_locked buf d
  pure [flag_char l 76, flag_char x 88, flag_char dl 68, flag_char s 83,
        flag_char u 85, flag_char r 82, flag_char w 87, flag_char k 75]

/-- Function `eos_ls_verbose` (lines 234-291). -/
def eos_ls_verbose (buf : List Nat) (d : Nat) (out : List Nat) :
    Except Nat (List Nat) := do
  let flags ← eos_ls_flags buf d
  let start_block ← read_u32 buf (d + offsetof .start_block)
  let blocks_used ← read_u16 buf (d + offsetof .blocks_used)
  let last_block_bytes_used ← read_u16 buf (d + offsetof .last_block_bytes_used)
  let allocated_blocks ← read_u16 buf (d + offsetof .allocated_blocks)
  let year ← read_u8 buf (d + offsetof .year)
  let month ← read_u8 buf (d + offsetof .month)
  let day ← read_u8 buf (d + offsetof .day)
  let out1 := out ++ flags
    ++ [32] ++ fmt_u 10 start_block ++ [32]
    ++ [32] ++ fmt_u 5 (used_bytes_printed blocks_used last_block_bytes_used)
    ++ [32, 47, 32] ++ fmt_u_left 5 (allocated_bytes_printed allocated_blocks) ++ [32]
    ++ [32] ++ fmt_02u year ++ [45] ++ fmt_02u month ++ [45] ++ fmt_02u day ++ [32]
  let out2 ← eos_ls_filename buf d out1
  pure (out2 ++ [10])

/-- Function `eos_ls_terse` (lines 297-301). -/
def eos_ls_terse (buf : List Nat) (d : Nat) (out : List Nat) :
    Except Nat (List Nat) := do
  let out1 ← eos_ls_filename buf d out
  pure (out1 ++ [10])

/-- The `while (!entry_is_blocks_left(d)) { ...; d++; }` loop of `eos_ls`
with `d` at buffer index `d`: the index of the entry that stopped the loop
and the output. -/
def eos_ls_walk (verbose : Bool) (buf : List Nat) (d : Nat) (out : List Nat) :
    Except Nat (Nat × List Nat) :=
  match _h : entry_is_blocks_left buf d with
  | .error e => .error e
  | .ok true => .ok (d, out)
  | .ok false =>
    match (if verbose then eos_ls_verbose buf d out else eos_ls_terse buf d out) with
    | .error e => .error e
    | .ok out1 => eos_ls_walk verbose buf (d + sizeof_DirectoryEntry) out1
termination_by buf.length - d
decreasing_by
  simp only [entry_is_blocks_left, read_u8] at _h
  split at _h
  · simp only [sizeof_DirectoryEntry, Field.all, Field.width, List.map, List.sum_cons,
      List.sum_nil, EOS_FILENAME_LEN]
    omega
  · simp [Except.map] at _h

/-- Text `"\nVOLUME: "`. -/
def volume_text : List Nat := [10, 86, 79, 76, 85, 77, 69, 58, 32]

/-- Text `" BYTES FREE\n\n"`. -/
def bytes_free_text : List Nat := [32, 66, 89, 84, 69, 83, 32, 70, 82, 69, 69, 10, 10]

/-- Function `eos_ls` (lines 308-339) on the directory buffer `buf`: the
bytes written to standard output. -/
def eos_ls (verbose : Bool) (buf : List Nat) : Except Nat (List Nat) := do
  let out0 ←
    if verbose then
      (eos_ls_filename buf (slot_offset 0) volume_text).map (· ++ [10, 10])
    else pure []
  let (d, out1) ← eos_ls_walk verbose buf (slot_offset 1) out0
  if verbose then do
    let allocated_blocks ← read_u16 buf (d + offsetof .allocated_blocks)
    pure (out1 ++ [10, 32] ++ fmt_u 10 (allocated_bytes_printed allocated_blocks)
      ++ bytes_free_text)
  else pure out1

/-! ## Mode selection and entry point of `eos-ls.c` -/

/-- The `enum _image_mode` of both programs. -/
inductive ImageMode
  | UNKNOWN | DSK | DDP
deriving DecidableEq

/-- Does the C string `hay` begin with the characters of `needle`. -/
def starts_with : List Nat → List Nat → Bool
  | [], _ => true
  | _ :: _, [] => false
  | n :: ns, h :: hs => n == h && starts_with ns hs

/-- The test `strstr(hay,needle) != NULL`: `needle` occurs somewhere in the C
string `hay` (given without its terminating NUL). -/
def strstr : List Nat → List Nat → Bool
  | [], needle => starts_with needle []
  | h :: hs, needle => starts_with needle (h :: hs) || strstr hs needle

/-- Text `".dsk"`. -/
def dot_dsk : List Nat := [46, 100, 115, 107]

/-- Text `".DSK"`. -/
def dot_DSK : List Nat := [46, 68, 83, 75]

/-- Text `".ddp"`. -/
def dot_ddp : List Nat := [46, 100, 100, 112]

/-- Text `".DDP"`. -/
def dot_DDP : List Nat := [46, 68, 68, 80]

/-- Function `set_image_mode` (eos-ls.c lines 38-57): the value returned, which
is also the value stored in the global `imageMode`. -/
def set_image_mode (fn : List Nat) : ImageMode :=
  if strstr fn dot_dsk || strstr fn dot_DSK then .DSK
  else if strstr fn dot_ddp || strstr fn dot_DDP then .DDP
  else .UNKNOWN

/-- Function `read_directory_sectors` (lines 208-214).  With `imageMode`
UNKNOWN the C function ends without a `return` and leaves the buffer as it
is; its indeterminate value is given as `false`. -/
def read_directory_sectors (imageMode : ImageMode) (image buf : List Nat) :
    Option LoadResult :=
  match imageMode with
  | .DSK => read_directory_sectors_dsk image buf
  | .DDP => read_directory_sectors_ddp image buf
  | .UNKNOWN => some (LoadResult.mk false buf none)

/-- The offsets handed to `fseek` by the loop of `read_directory_sectors_dsk`,
in order, with the control flow of `read_directory_sectors_dsk_loop`. -/
def read_directory_sectors_dsk_seeks (image : List Nat) : Nat → Nat → List Nat
  | 0, _ => []
  | fuel + 1, blockNum =>
    if blockNum < 8 then
      let o1 := dsk_o1 blockNum
      let o2 := dsk_o2 blockNum
      if (fread_at image o1 DISK_SECTOR_SIZE).length ≠ DISK_SECTOR_SIZE then [o1]
      else if (fread_at image o2 DISK_SECTOR_SIZE).length ≠ DISK_SECTOR_SIZE then [o1, o2]
      else o1 :: o2 ::
        read_directory_sectors_dsk_seeks image fuel (incr_uint8 (incr_uint8 blockNum))
    else []

/-- The offsets handed to `fseek` by the loop of `read_directory_sectors_ddp`,
in order, with the control flow of `read_directory_sectors_ddp_loop`. -/
def read_directory_sectors_ddp_seeks (image : List Nat) : Nat → Nat → List Nat
  | 0, _ => []
  | fuel + 1, blockNum =>
    if blockNum < 8 then
      let o := blockNum * BLOCK_SIZE
      if (fread_at image o BLOCK_SIZE).length ≠ BLOCK_SIZE then [o]
      else o :: read_directory_sectors_ddp_seeks image fuel (incr_uint8 (incr_uint8 blockNum))
    else []

/-- What a run of a program leaves: its exit status and the bytes written to
standard output. -/
structure ExitResult where
  status : Nat
  out : List Nat
deriving DecidableEq

/-- Text `" [-l] <image.dsk|ddp>\n\n"` of the usage message. -/
def usage_text : List Nat :=
  [32, 91, 45, 108, 93, 32, 60, 105, 109, 97, 103, 101, 46, 100, 115, 107, 124, 100, 100,
    112, 62, 10, 10]

/-- Text `"Image filename must end with .dsk or .ddp\n"`. -/
def must_end_text : List Nat :=
  [73, 109, 97, 103, 101, 32, 102, 105, 108, 101, 110, 97, 109, 101, 32, 109, 117, 115, 116,
    32, 101, 110, 100, 32, 119, 105, 116, 104, 32, 46, 100, 115, 107, 32, 111, 114, 32, 46,
    100, 100, 112, 10]

/-- Text `"Block #"` of the loaders' diagnostic. -/
def block_text : List Nat := [66, 108, 111, 99, 107, 32, 35]

/-- What `printf("Block #%u\n",blockNum)` wrote during a load. -/
def block_diagnostic (r : LoadResult) : List Nat :=
  match r.block with
  | some b => block_text ++ decimal b ++ [10]
  | none => []

/-- The `while (i<argc)` loop of `main` over the arguments still to be seen,
with the current `verbose`, `imageMode` and `fp` (the content of the file
opened last, `none` for NULL); `fopen` gives the content of a file that can
be opened.  An `Except.error` is the early `return 1`. -/
def main_args (fopen : List Nat → Option (List Nat)) :
    List (List Nat) → Bool → ImageMode → Option (List Nat) →
      Except ExitResult (Bool × ImageMode × Option (List Nat))
  | [], verbose, imageMode, fp => .ok (verbose, imageMode, fp)
  | arg :: rest, verbose, imageMode, fp =>
    if arg.getD 0 0 = 45 ∧ arg.getD 1 0 = 108 then
      main_args fopen rest true imageMode fp
    else
      match set_image_mode arg with
      | .UNKNOWN => .error (ExitResult.mk 1 must_end_text)
      | mode => main_args fopen rest verbose mode (fopen arg)

/-- Function `main` of eos-ls.c (lines 346-388) on the argument vector `argv`.
The value of `read_directory_sectors(fp)` is not looked at.  `none` is a
loader out of fuel, `Except.error` a read outside the directory buffer. -/
def main (fopen : List Nat → Option (List Nat)) (argv : List (List Nat)) :
    Option (Except Nat ExitResult) :=
  if argv.length < 2 then
    some (.ok (ExitResult.mk 1 (argv.getD 0 [] ++ usage_text)))
  else
    match main_args fopen (argv.drop 1) false .UNKNOWN none with
    | .error r => some (.ok r)
    | .ok (verbose, imageMode, fp) =>
      match fp with
      | none => some (.ok (ExitResult.mk 1 []))
      | some image =>
        match read_directory_sectors imageMode image (List.replicate BUF_SIZE 0) with
        | none => none
        | some r =>
          match eos_ls verbose r.buf with
          | .error e => some (.error e)
          | .ok out => some (.ok (ExitResult.mk 0 (block_diagnostic r ++ out)))

/-! ## The image creator `eos-make-image.c` -/

namespace MakeImage

/-- Function `set_image_mode` of eos-make-image.c (lines 41-51). -/
def set_image_mode (fn : List Nat) : ImageMode :=
  if strstr fn dot_dsk || strstr fn dot_DSK then .DSK
  else if strstr fn dot_ddp || strstr fn dot_DDP then .DDP
  else .UNKNOWN

/-- What the C library answers during `create_image`: whether `fopen` fails,
what `feof(fp)` gives after the `fputc`, and the value of `errno` read on a
failure path. -/
structure Env where
  fopen_fails : Bool
  feof : Bool
  errno : Nat
deriving DecidableEq

/-- Outcome of `create_image`: the `size_t` returned and the length of the
file written, `none` when no file was opened. -/
structure CreateResult where
  ret : Nat
  file_length : Option Nat
deriving DecidableEq

/-- The value `(total_blocks * 1024) - 1` of `sz`: `total_blocks` is a
`uint32_t`, so product and difference are taken modulo 2^32 before the
conversion to `size_t`. -/
def create_image_sz (total_blocks : Nat) : Nat :=
  ((total_blocks * 1024) % 4294967296 + 4294967295) % 4294967296

/-- Function `create_image` (lines 59-84): `fseek(fp,sz,SEEK_SET)` and
`fputc(0x00,fp)` on the new, empty file leave a file of `sz + 1` bytes. -/
def create_image (env : Env) (total_blocks : Nat) : CreateResult :=
  let sz := create_image_sz total_blocks
  if env.fopen_fails then CreateResult.mk env.errno none
  else if env.feof then CreateResult.mk env.errno (some (sz + 1))
  else CreateResult.mk sz (some (sz + 1))

/-- `#define ARGS_REQD 4`. -/
def ARGS_REQD : Nat := 4

/-- The C library's `isspace` in the C locale. -/
def isspace (c : Nat) : Bool := decide (c = 32 ∨ (9 ≤ c ∧ c ≤ 13))

/-- The number written by the decimal digits at the start of `s`, continuing
the value `acc` read so far. -/
def atol_digits : List Nat → Nat → Nat
  | [], acc => acc
  | c :: cs, acc => if 48 ≤ c ∧ c ≤ 57 then atol_digits cs (acc * 10 + (c - 48)) else acc

/-- The C library's `atol` on a C string: white space, an optional sign, then
decimal digits; the value is taken exactly (a number outside the range of
`long` is not modelled). -/
def atol : List Nat → Int
  | [] => 0
  | c :: cs =>
    if isspace c then atol cs
    else if c = 45 then -((atol_digits cs 0 : Nat) : Int)
    else if c = 43 then ((atol_digits cs 0 : Nat) : Int)
    else ((atol_digits (c :: cs) 0 : Nat) : Int)

/-- Function `eos_make_image` (lines 98-130) on the argument vector `argv`,
whose length is `argc` and whose entry `argv[argc]` is NULL: the `int`
returned.  Lines 100-103 read `argv[1]` to `argv[4]` before anything else;
`atol(argv[3])` and `atoi(argv[4])` have no defined result on a NULL argument,
which is `none`.  `errno_at_return` is the value of `errno` that
`return errno` reads after the `printf`.  The `printf` output is left out. -/
def eos_make_image (env : Env) (errno_at_return : Nat) (argv : List (List Nat)) :
    Option Nat :=
  match argv[1]?, argv[3]?, argv[4]? with
  | some fn, some arg3, some _ =>
    let total_blocks := to_uint32 (atol arg3)
    if set_image_mode fn = .UNKNOWN then some 1
    else if (create_image env total_blocks).ret = 0 then some errno_at_return
    else some 0
  | _, _, _ => none

/-- Function `main` of eos-make-image.c (lines 136-150): the exit status;
the usage text is left out. -/
def main (env : Env) (errno_at_return : Nat) (argv : List (List Nat)) : Option Nat :=
  if argv.length < ARGS_REQD then some 1
  else eos_make_image env errno_at_return argv

end MakeImage

/-! ## Vocabulary of the statements -/

/-- The 12 bytes of the file name member of the entry at buffer index `d`. -/
def filename_field (buf : List Nat) (d : Nat) : List Nat :=
  (buf.drop (d + offsetof .filename)).take EOS_FILENAME_LEN

/-- The bytes of a field that precede its first 0x03. -/
def before_sentinel (field : List Nat) : List Nat :=
  field.takeWhile (fun c => c != 3)

/-- The attribute byte of directory slot `i`, 0 when it lies outside `buf`. -/
def slot_attributes (buf : List Nat) (i : Nat) : Nat :=
  buf.getD (slot_offset i + offsetof .attributes) 0

/-- The terse listing of the `n` slots from slot `i` on: the decoded name of
each slot followed by a line break. -/
def terse_lines (buf : List Nat) (i n : Nat) : List Nat :=
  ((List.range' i n).map
    (fun j => before_sentinel (filename_field buf (slot_offset j)) ++ [10])).flatten

/-- Every failure of `x` is a read at an index outside `buf`. -/
def fails_outside {α : Type} (buf : List Nat) (x : Except Nat α) : Prop :=
  ∀ e, x = .error e → buf.length ≤ e

/-- The byte of `buf` at index `i`, 0 outside the buffer. -/
def u8_at (buf : List Nat) (i : Nat) : Nat := buf.getD i 0

/-- The little-endian 16-bit value at index `i`. -/
def u16_at (buf : List Nat) (i : Nat) : Nat := u8_at buf i + 256 * u8_at buf (i + 1)

/-- The little-endian 32-bit value at index `i`. -/
def u32_at (buf : List Nat) (i : Nat) : Nat := u16_at buf i + 65536 * u16_at buf (i + 2)

/-- The eight flag characters `eos_ls_verbose` writes for the attribute byte
`a`. -/
def flag_mask (a : Nat) : List Nat :=
  [flag_char (attr_test a ENTRY_ATTRIBUTE_BLOCKS_LEFT) 76,
   flag_char (attr_test a ENTRY_ATTRIBUTE_EXEC_PROTECT) 88,
   flag_char (attr_test a ENTRY_ATTRIBUTE_DELETED) 68,
   flag_char (attr_test a ENTRY_ATTRIBUTE_SYSTEM_FILE) 83,
   flag_char (attr_test a ENTRY_ATTRIBUTE_USER_FILE) 85,
   flag_char (attr_test a ENTRY_ATTRIBUTE_READ_PROTECT) 82,
   flag_char (attr_test a ENTRY_ATTRIBUTE_WRITE_PROTECT) 87,
   flag_char (attr_test a ENTRY_ATTRIBUTE_LOCKED) 75]

/-- The text `eos_ls_verbose` writes before the file name for the entry at
buffer index `d`. -/
def verbose_columns (buf : List Nat) (d : Nat) : List Nat :=
  flag_mask (u8_at buf (d + 12))
    ++ [32] ++ fmt_u 10 (u32_at buf (d + 13)) ++ [32]
    ++ [32] ++ fmt_u 5 (used_bytes_printed (u16_at buf (d + 19)) (u16_at buf (d + 21)))
    ++ [32, 47, 32] ++ fmt_u_left 5 (allocated_bytes_printed (u16_at buf (d + 17))) ++ [32]
    ++ [32] ++ fmt_02u (u8_at buf (d + 23)) ++ [45] ++ fmt_02u (u8_at buf (d + 24)) ++ [45]
    ++ fmt_02u (u8_at buf (d + 25)) ++ [32]

/-- The 14 offsets of the interleave formula for the blocks 1..7: primary and
secondary offset of each block. -/
def dsk_offsets_1_to_7 : List Nat :=
  ((List.range' 1 7).map (fun b => [dsk_o1 b, dsk_o2 b])).flatten

/-- The letters of the flag mask in the order they are written:
`L X D S U R W K`. -/
def flag_letters : List Nat := [76, 88, 68, 83, 85, 82, 87, 75]

/-- The verbose rows of the `n` slots from slot `i` on: columns, decoded name
and line break of each slot. -/
def verbose_lines (buf : List Nat) (i n : Nat) : List Nat :=
  ((List.range' i n).map
    (fun j => verbose_columns buf (slot_offset j)
      ++ before_sentinel (filename_field buf (slot_offset j)) ++ [10])).flatten

/-! ## Sample inputs -/

/-- An 8192-byte image whose byte at offset `i` is the number `i / 1024` of
the block it lies in. -/
def block_tagged_image : List Nat := (List.range 8192).map (fun i => i / 1024)

/-- An 8192-byte image whose byte at offset `i` is the number `i / 512` of
the sector it lies in. -/
def sector_tagged_image : List Nat := (List.range 8192).map (fun i => i / 512)

/-- The directory buffer as the program starts: a zero-initialised global. -/
def zero_buf : List Nat := List.replicate BUF_SIZE 0

/-- A file name field holding `HELLO`, the sentinel and six zero bytes. -/
def hello_field : List Nat := [72, 69, 76, 76, 79, 3, 0, 0, 0, 0, 0, 0]

/-- A directory buffer: volume label `TESTVOL`, one entry `FOO` (user file,
start block 9, 4 blocks allocated, 2 used, 50 bytes in the last one, dated
84-05-06), the `BLOCKS LEFT` terminator with 100 free blocks, zeros after. -/
def sample_directory : List Nat :=
  [84, 69, 83, 84, 86, 79, 76, 3, 0, 0, 0, 0,  0,  0, 0, 0, 0,  0, 0,  0, 0,  0, 0,  0, 0, 0] ++
  [70, 79, 79, 3, 0, 0, 0, 0, 0, 0, 0, 0,  16,  9, 0, 0, 0,  4, 0,  2, 0,  50, 0,  84, 5, 6] ++
  [66, 76, 79, 67, 75, 83, 32, 76, 69, 70, 84, 3,  1,  0, 0, 0, 0,  100, 0,  0, 0,  0, 0,
    0, 0, 0] ++
  List.replicate 7090 0

/-- A directory buffer whose slot 1 has the twelve name bytes `ABCDEFGHIJKL`
and no 0x03 among them; its attribute byte is 0x10 and its start block is 3. -/
def unterminated_directory : List Nat :=
  [84, 69, 83, 84, 86, 79, 76, 3, 0, 0, 0, 0,  0,  0, 0, 0, 0,  0, 0,  0, 0,  0, 0,  0, 0, 0] ++
  [65, 66, 67, 68, 69, 70, 71, 72, 73, 74, 75, 76,  16,  3, 0, 0, 0,  4, 0,  2, 0,  50, 0,
    84, 5, 6] ++
  [66, 76, 79, 67, 75, 83, 32, 76, 69, 70, 84, 3,  1,  0, 0, 0, 0,  100, 0,  0, 0,  0, 0,
    0, 0, 0] ++
  List.replicate 7090 0

/-- The sample directory with an empty file: entry `FOO` has `blocks_used = 0`
and `last_block_bytes_used = 0`. -/
def empty_file_directory : List Nat :=
  [84, 69, 83, 84, 86, 79, 76, 3, 0, 0, 0, 0,  0,  0, 0, 0, 0,  0, 0,  0, 0,  0, 0,  0, 0, 0] ++
  [70, 79, 79, 3, 0, 0, 0, 0, 0, 0, 0, 0,  16,  9, 0, 0, 0,  4, 0,  0, 0,  0, 0,  84, 5, 6] ++
  [66, 76, 79, 67, 75, 83, 32, 76, 69, 70, 84, 3,  1,  0, 0, 0, 0,  100, 0,  0, 0,  0, 0,
    0, 0, 0] ++
  List.replicate 7090 0

/-- A flat image cut short after block 1: 1024 zero bytes (block 0) followed
by the first 1024 bytes of the sample directory (block 1), 2048 bytes in all. -/
def short_ddp_image : List Nat := List.replicate 1024 0 ++ sample_directory.take 1024

/-- A file system holding `short_ddp_image` under the name `t.ddp` and no
other file. -/
def short_image_fopen (name : List Nat) : Option (List Nat) :=
  if name = [116, 46, 100, 100, 112] then some short_ddp_image else none

/-! ## Lemmas on the image and the buffer -/

theorem length_fread_at (image : List Nat) (o n : Nat) (h : o + n ≤ image.length) :
    (fread_at image o n).length = n := by
  simp only [fread_at, List.length_take, List.length_drop]; omega

theorem length_store (buf data : List Nat) (l : Nat) (h : l + data.length ≤ buf.length) :
    (store buf l data).length = buf.length := by
  simp only [store, List.length_append, List.length_take, List.length_drop]; omega

theorem getElem?_store (buf data : List Nat) (l i n : Nat) (hn : data.length = n)
    (h : l + n ≤ buf.length) :
    (store buf l data)[i]? =
      if i < l then buf[i]? else if i < l + n then data[i - l]? else buf[i]? := by
  subst hn
  have hl : (List.take l buf).length = l := by simp only [List.length_take]; omega
  unfold store
  by_cases h1 : i < l
  · rw [if_pos h1, List.append_assoc, List.getElem?_append_left (by omega),
      List.getElem?_take_of_lt h1]
  · rw [if_neg h1, List.append_assoc, List.getElem?_append_right (by omega), hl]
    by_cases h2 : i < l + data.length
    · rw [if_pos h2, List.getElem?_append_left (by omega)]
    · rw [if_neg h2, List.getElem?_append_right (by omega), List.getElem?_drop]
      congr 1; omega

theorem getElem?_fread_at (image : List Nat) (o n i : Nat) (h : i < n) :
    (fread_at image o n)[i]? = image[o + i]? := by
  simp only [fread_at, List.getElem?_take_of_lt h, List.getElem?_drop]

theorem ddp_step (image buf : List Nat) (fuel b l o b2 l2 : Nat) (hb : b < 8)
    (ho : b * 1024 = o) (hb2 : b + 2 = b2) (hl2 : l + 1024 = l2)
    (h : 8192 ≤ image.length) :
    read_directory_sectors_ddp_loop image (fuel + 1) b l buf =
      read_directory_sectors_ddp_loop image fuel b2 l2
        (store buf l (fread_at image o 1024)) := by
  rw [read_directory_sectors_ddp_loop]
  have h2 : incr_uint8 (incr_uint8 b) = b + 2 := by
    simp only [incr_uint8]; omega
  have h3 := length_fread_at image o 1024 (by omega)
  simp only [BLOCK_SIZE, h2, ho, h3, if_pos hb, hb2, hl2]
  simp

theorem ddp_exit (image buf : List Nat) (fuel b l : Nat) (hb : 8 ≤ b) :
    read_directory_sectors_ddp_loop image (fuel + 1) b l buf =
      some (LoadResult.mk true buf none) := by
  rw [read_directory_sectors_ddp_loop, if_neg (by omega)]

theorem read_directory_sectors_ddp_eq (image buf : List Nat) (h : 8192 ≤ image.length) :
    read_directory_sectors_ddp image buf =
      some (LoadResult.mk true
        (store (store (store (store buf 0 (fread_at image 1024 1024)) 1024
          (fread_at image 3072 1024)) 2048 (fread_at image 5120 1024)) 3072
          (fread_at image 7168 1024)) none) := by
  unfold read_directory_sectors_ddp
  exact (ddp_step image _ 7 1 0 1024 3 1024 (by omega) (by omega) (by omega) (by omega) h).trans <|
    (ddp_step image _ 6 3 1024 3072 5 2048 (by omega) (by omega) (by omega) (by omega) h).trans <|
    (ddp_step image _ 5 5 2048 5120 7 3072 (by omega) (by omega) (by omega) (by omega) h).trans <|
    (ddp_step image _ 4 7 3072 7168 9 4096 (by omega) (by omega) (by omega) (by omega) h).trans <|
    ddp_exit image _ 3 9 4096 (by omega)

theorem dsk_step (image buf : List Nat) (fuel b l o1 o2 b2 l1 l2 : Nat) (hb : b < 8)
    (h1 : dsk_o1 b = o1) (h2 : dsk_o2 b = o2) (hb2 : b + 2 = b2)
    (hl1 : l + 512 = l1) (hl2 : l1 + 512 = l2)
    (hi1 : o1 + 512 ≤ image.length) (hi2 : o2 + 512 ≤ image.length) :
    read_directory_sectors_dsk_loop image (fuel + 1) b l buf =
      read_directory_sectors_dsk_loop image fuel b2 l2
        (store (store buf l (fread_at image o1 512)) l1 (fread_at image o2 512)) := by
  rw [read_directory_sectors_dsk_loop]
  have h3 : incr_uint8 (incr_uint8 b) = b + 2 := by
    simp only [incr_uint8]; omega
  have e1 := length_fread_at image o1 512 hi1
  have e2 := length_fread_at image o2 512 hi2
  simp only [DISK_SECTOR_SIZE, h1, h2, h3, e1, e2, if_pos hb, hb2, hl1, hl2]
  simp

theorem dsk_exit (image buf : List Nat) (fuel b l : Nat) (hb : 8 ≤ b) :
    read_directory_sectors_dsk_loop image (fuel + 1) b l buf =
      some (LoadResult.mk true buf none) := by
  rw [read_directory_sectors_dsk_loop, if_neg (by omega)]

theorem read_directory_sectors_dsk_eq (image buf : List Nat) (h : 8192 ≤ image.length) :
    read_directory_sectors_dsk image buf =
      some (LoadResult.mk true
        (store (store (store (store (store (store (store (store buf
          0 (fread_at image 1024 512)) 512 (fread_at image 3584 512))
          1024 (fread_at image 3072 512)) 1536 (fread_at image 1536 512))
          2048 (fread_at image 5120 512)) 2560 (fread_at image 7680 512))
          3072 (fread_at image 7168 512)) 3584 (fread_at image 5632 512)) none) := by
  unfold read_directory_sectors_dsk
  exact (dsk_step image _ 7 1 0 1024 3584 3 512 1024 (by omega) (by decide) (by decide)
      (by omega) (by omega) (by omega) (by omega) (by omega)).trans <|
    (dsk_step image _ 6 3 1024 3072 1536 5 1536 2048 (by omega) (by decide) (by decide)
      (by omega) (by omega) (by omega) (by omega) (by omega)).trans <|
    (dsk_step image _ 5 5 2048 5120 7680 7 2560 3072 (by omega) (by decide) (by decide)
      (by omega) (by omega) (by omega) (by omega) (by omega)).trans <|
    (dsk_step image _ 4 7 3072 7168 5632 9 3584 4096 (by omega) (by decide) (by decide)
      (by omega) (by omega) (by omega) (by omega) (by omega)).trans <|
    dsk_exit image _ 3 9 4096 (by omega)

theorem getElem?_store_fread (buf image : List Nat) (l o n i : Nat)
    (ho : o + n ≤ image.length) (h : l + n ≤ buf.length) :
    (store buf l (fread_at image o n))[i]? =
      if l ≤ i ∧ i < l + n then image[o + i - l]? else buf[i]? := by
  rw [getElem?_store buf _ l i n (length_fread_at image o n ho) h]
  by_cases h1 : i < l
  · rw [if_pos h1, if_neg (by omega)]
  · rw [if_neg h1]
    by_cases h2 : i < l + n
    · rw [if_pos h2, if_pos (by omega), getElem?_fread_at image o n (i - l) (by omega)]
      refine congrArg (fun k => image[k]?) ?_
      omega
    · rw [if_neg h2, if_neg (by omega)]

theorem length_store_fread (buf image : List Nat) (l o n : Nat)
    (ho : o + n ≤ image.length) (h : l + n ≤ buf.length) :
    (store buf l (fread_at image o n)).length = buf.length :=
  length_store buf _ l (by rw [length_fread_at image o n ho]; exact h)

theorem ddp_getElem? (image buf : List Nat) (h : 8192 ≤ image.length)
    (hb : buf.length = 7168) (i : Nat) :
    (read_directory_sectors_ddp image buf).map (fun r => r.buf[i]?) =
      some (if i < 4096 then image[(2 * (i / 1024) + 1) * 1024 + i % 1024]? else buf[i]?) := by
  have s1 := length_store_fread buf image 0 1024 1024 (by omega) (by omega)
  have s3 := length_store_fread _ image 1024 3072 1024 (by omega) (by rw [s1]; omega)
  have s5 := length_store_fread _ image 2048 5120 1024 (by omega) (by rw [s3, s1]; omega)
  rw [read_directory_sectors_ddp_eq image buf h, Option.map_some']
  refine congrArg some ?_
  dsimp only
  rw [getElem?_store_fread _ image 3072 7168 1024 i (by omega) (by rw [s5, s3, s1]; omega),
    getElem?_store_fread _ image 2048 5120 1024 i (by omega) (by rw [s3, s1]; omega),
    getElem?_store_fread _ image 1024 3072 1024 i (by omega) (by rw [s1]; omega),
    getElem?_store_fread _ image 0 1024 1024 i (by omega) (by omega)]
  split_ifs <;> first
    | omega
    | with_reducible rfl
    | (refine congrArg (fun k => image[k]?) ?_
       omega)

theorem dsk_getElem? (image buf : List Nat) (h : 8192 ≤ image.length)
    (hb : buf.length = 7168) (i : Nat) :
    (read_directory_sectors_dsk image buf).map (fun r => r.buf[i]?) =
      some (if i < 512 then image[1024 + i - 0]?
        else if i < 1024 then image[3584 + i - 512]?
        else if i < 1536 then image[3072 + i - 1024]?
        else if i < 2048 then image[1536 + i - 1536]?
        else if i < 2560 then image[5120 + i - 2048]?
        else if i < 3072 then image[7680 + i - 2560]?
        else if i < 3584 then image[7168 + i - 3072]?
        else if i < 4096 then image[5632 + i - 3584]?
        else buf[i]?) := by
  have s1 := length_store_fread buf image 0 1024 512 (by omega) (by omega)
  have s2 := length_store_fread _ image 512 3584 512 (by omega) (by rw [s1]; omega)
  have s3 := length_store_fread _ image 1024 3072 512 (by omega) (by rw [s2, s1]; omega)
  have s4 := length_store_fread _ image 1536 1536 512 (by omega) (by rw [s3, s2, s1]; omega)
  have s5 := length_store_fread _ image 2048 5120 512 (by omega)
    (by rw [s4, s3, s2, s1]; omega)
  have s6 := length_store_fread _ image 2560 7680 512 (by omega)
    (by rw [s5, s4, s3, s2, s1]; omega)
  have s7 := length_store_fread _ image 3072 7168 512 (by omega)
    (by rw [s6, s5, s4, s3, s2, s1]; omega)
  rw [read_directory_sectors_dsk_eq image buf h, Option.map_some']
  refine congrArg some ?_
  dsimp only
  rw [getElem?_store_fread _ image 3584 5632 512 i (by omega)
      (by rw [s7, s6, s5, s4, s3, s2, s1]; omega),
    getElem?_store_fread _ image 3072 7168 512 i (by omega)
      (by rw [s6, s5, s4, s3, s2, s1]; omega),
    getElem?_store_fread _ image 2560 7680 512 i (by omega) (by rw [s5, s4, s3, s2, s1]; omega),
    getElem?_store_fread _ image 2048 5120 512 i (by omega) (by rw [s4, s3, s2, s1]; omega),
    getElem?_store_fread _ image 1536 1536 512 i (by omega) (by rw [s3, s2, s1]; omega),
    getElem?_store_fread _ image 1024 3072 512 i (by omega) (by rw [s2, s1]; omega),
    getElem?_store_fread _ image 512 3584 512 i (by omega) (by rw [s1]; omega),
    getElem?_store_fread _ image 0 1024 512 i (by omega) (by omega)]
  have hr : i < 512 ∨ (512 ≤ i ∧ i < 1024) ∨ (1024 ≤ i ∧ i < 1536) ∨ (1536 ≤ i ∧ i < 2048) ∨
      (2048 ≤ i ∧ i < 2560) ∨ (2560 ≤ i ∧ i < 3072) ∨ (3072 ≤ i ∧ i < 3584) ∨
      (3584 ≤ i ∧ i < 4096) ∨ 4096 ≤ i := by omega
  rcases hr with c | c | c | c | c | c | c | c | c
  · rw [if_neg (by omega : ¬ (3584 ≤ i ∧ i < 3584 + 512)),
      if_neg (by omega : ¬ (3072 ≤ i ∧ i < 3072 + 512)),
      if_neg (by omega : ¬ (2560 ≤ i ∧ i < 2560 + 512)),
      if_neg (by omega : ¬ (2048 ≤ i ∧ i < 2048 + 512)),
      if_neg (by omega : ¬ (1536 ≤ i ∧ i < 1536 + 512)),
      if_neg (by omega : ¬ (1024 ≤ i ∧ i < 1024 + 512)),
      if_neg (by omega : ¬ (512 ≤ i ∧ i < 512 + 512)),
      if_pos (by omega : 0 ≤ i ∧ i < 0 + 512),
      if_pos (by omega : i < 512)]
  · rw [if_neg (by omega : ¬ (3584 ≤ i ∧ i < 3584 + 512)),
      if_neg (by omega : ¬ (3072 ≤ i ∧ i < 3072 + 512)),
      if_neg (by omega : ¬ (2560 ≤ i ∧ i < 2560 + 512)),
      if_neg (by omega : ¬ (2048 ≤ i ∧ i < 2048 + 512)),
      if_neg (by omega : ¬ (1536 ≤ i ∧ i < 1536 + 512)),
      if_neg (by omega : ¬ (1024 ≤ i ∧ i < 1024 + 512)),
      if_pos (by omega : 512 ≤ i ∧ i < 512 + 512),
      if_neg (by omega : ¬ (i < 512)),
      if_pos (by omega : i < 1024)]
  · rw [if_neg (by omega : ¬ (3584 ≤ i ∧ i < 3584 + 512)),
      if_neg (by omega : ¬ (3072 ≤ i ∧ i < 3072 + 512)),
      if_neg (by omega : ¬ (2560 ≤ i ∧ i < 2560 + 512)),
      if_neg (by omega : ¬ (2048 ≤ i ∧ i < 2048 + 512)),
      if_neg (by omega : ¬ (1536 ≤ i ∧ i < 1536 + 512)),
      if_pos (by omega : 1024 ≤ i ∧ i < 1024 + 512),
      if_neg (by omega : ¬ (i < 512)),
      if_neg (by omega : ¬ (i < 1024)),
      if_pos (by omega : i < 1536)]
  · rw [if_neg (by omega : ¬ (3584 ≤ i ∧ i < 3584 + 512)),
      if_neg (by omega : ¬ (3072 ≤ i ∧ i < 3072 + 512)),
      if_neg (by omega : ¬ (2560 ≤ i ∧ i < 2560 + 512)),
      if_neg (by omega : ¬ (2048 ≤ i ∧ i < 2048 + 512)),
      if_pos (by omega : 1536 ≤ i ∧ i < 1536 + 512),
      if_neg (by omega : ¬ (i < 512)),
      if_neg (by omega : ¬ (i < 1024)),
      if_neg (by omega : ¬ (i < 1536)),
      if_pos (by omega : i < 2048)]
  · rw [if_neg (by omega : ¬ (3584 ≤ i ∧ i < 3584 + 512)),
      if_neg (by omega : ¬ (3072 ≤ i ∧ i < 3072 + 512)),
      if_neg (by omega : ¬ (2560 ≤ i ∧ i < 2560 + 512)),
      if_pos (by omega : 2048 ≤ i ∧ i < 2048 + 512),
      if_neg (by omega : ¬ (i < 512)),
      if_neg (by omega : ¬ (i < 1024)),
      if_neg (by omega : ¬ (i < 1536)),
      if_neg (by omega : ¬ (i < 2048)),
      if_pos (by omega : i < 2560)]
  · rw [if_neg (by omega : ¬ (3584 ≤ i ∧ i < 3584 + 512)),
      if_neg (by omega : ¬ (3072 ≤ i ∧ i < 3072 + 512)),
      if_pos (by omega : 2560 ≤ i ∧ i < 2560 + 512),
      if_neg (by omega : ¬ (i < 512)),
      if_neg (by omega : ¬ (i < 1024)),
      if_neg (by omega : ¬ (i < 1536)),
      if_neg (by omega : ¬ (i < 2048)),
      if_neg (by omega : ¬ (i < 2560)),
      if_pos (by omega : i < 3072)]
  · rw [if_neg (by omega : ¬ (3584 ≤ i ∧ i < 3584 + 512)),
      if_pos (by omega : 3072 ≤ i ∧ i < 3072 + 512),
      if_neg (by omega : ¬ (i < 512)),
      if_neg (by omega : ¬ (i < 1024)),
      if_neg (by omega : ¬ (i < 1536)),
      if_neg (by omega : ¬ (i < 2048)),
      if_neg (by omega : ¬ (i < 2560)),
      if_neg (by omega : ¬ (i < 3072)),
      if_pos (by omega : i < 3584)]
  · rw [if_pos (by omega : 3584 ≤ i ∧ i < 3584 + 512),
      if_neg (by omega : ¬ (i < 512)),
      if_neg (by omega : ¬ (i < 1024)),
      if_neg (by omega : ¬ (i < 1536)),
      if_neg (by omega : ¬ (i < 2048)),
      if_neg (by omega : ¬ (i < 2560)),
      if_neg (by omega : ¬ (i < 3072)),
      if_neg (by omega : ¬ (i < 3584)),
      if_pos (by omega : i < 4096)]
  · rw [if_neg (by omega : ¬ (3584 ≤ i ∧ i < 3584 + 512)),
      if_neg (by omega : ¬ (3072 ≤ i ∧ i < 3072 + 512)),
      if_neg (by omega : ¬ (2560 ≤ i ∧ i < 2560 + 512)),
      if_neg (by omega : ¬ (2048 ≤ i ∧ i < 2048 + 512)),
      if_neg (by omega : ¬ (1536 ≤ i ∧ i < 1536 + 512)),
      if_neg (by omega : ¬ (1024 ≤ i ∧ i < 1024 + 512)),
      if_neg (by omega : ¬ (512 ≤ i ∧ i < 512 + 512)),
      if_neg (by omega : ¬ (0 ≤ i ∧ i < 0 + 512)),
      if_neg (by omega : ¬ (i < 512)),
      if_neg (by omega : ¬ (i < 1024)),
      if_neg (by omega : ¬ (i < 1536)),
      if_neg (by omega : ¬ (i < 2048)),
      if_neg (by omega : ¬ (i < 2560)),
      if_neg (by omega : ¬ (i < 3072)),
      if_neg (by omega : ¬ (i < 3584)),
      if_neg (by omega : ¬ (i < 4096))]

theorem length_block_tagged_image : block_tagged_image.length = 8192 := by
  simp [block_tagged_image]

theorem length_sector_tagged_image : sector_tagged_image.length = 8192 := by
  simp [sector_tagged_image]

theorem length_zero_buf : zero_buf.length = 7168 := by
  simp only [zero_buf, BUF_SIZE, List.length_replicate]

theorem getElem?_zero_buf (i : Nat) (h : i < 7168) : zero_buf[i]? = some 0 := by
  simp only [zero_buf, BUF_SIZE, List.getElem?_replicate, if_pos h]

theorem getElem?_block_tagged_image (i : Nat) (h : i < 8192) :
    block_tagged_image[i]? = some (i / 1024) := by
  simp only [block_tagged_image, List.getElem?_map, List.getElem?_range h, Option.map_some']

theorem getElem?_sector_tagged_image (i : Nat) (h : i < 8192) :
    sector_tagged_image[i]? = some (i / 512) := by
  simp only [sector_tagged_image, List.getElem?_map, List.getElem?_range h, Option.map_some']

/-! ## The loaders always return -/

theorem ddp_loop_total (image : List Nat) :
    ∀ (fuel b l : Nat) (buf : List Nat), 1 ≤ fuel → 10 ≤ 2 * fuel + b →
      ∃ r, read_directory_sectors_ddp_loop image fuel b l buf = some r := by
  intro fuel
  induction fuel with
  | zero => intro b l buf h; omega
  | succ fuel ih =>
    intro b l buf _ h2
    rw [read_directory_sectors_ddp_loop]
    by_cases hb : b < 8
    · rw [if_pos hb]
      dsimp only
      by_cases hs : (fread_at image (b * BLOCK_SIZE) BLOCK_SIZE).length ≠ BLOCK_SIZE
      · rw [if_pos hs]; exact ⟨_, rfl⟩
      · rw [if_neg hs]
        have h3 : incr_uint8 (incr_uint8 b) = b + 2 := by
          simp only [incr_uint8]; omega
        rw [h3]
        exact ih (b + 2) _ _ (by omega) (by omega)
    · rw [if_neg hb]; exact ⟨_, rfl⟩

theorem dsk_loop_total (image : List Nat) :
    ∀ (fuel b l : Nat) (buf : List Nat), 1 ≤ fuel → 10 ≤ 2 * fuel + b →
      ∃ r, read_directory_sectors_dsk_loop image fuel b l buf = some r := by
  intro fuel
  induction fuel with
  | zero => intro b l buf h; omega
  | succ fuel ih =>
    intro b l buf _ h2
    rw [read_directory_sectors_dsk_loop]
    by_cases hb : b < 8
    · rw [if_pos hb]
      dsimp only
      by_cases hs : (fread_at image (dsk_o1 b) DISK_SECTOR_SIZE).length ≠ DISK_SECTOR_SIZE
      · rw [if_pos hs]; exact ⟨_, rfl⟩
      · rw [if_neg hs]
        by_cases hs2 : (fread_at image (dsk_o2 b) DISK_SECTOR_SIZE).length ≠ DISK_SECTOR_SIZE
        · rw [if_pos hs2]; exact ⟨_, rfl⟩
        · rw [if_neg hs2]
          have h3 : incr_uint8 (incr_uint8 b) = b + 2 := by
            simp only [incr_uint8]; omega
          rw [h3]
          exact ih (b + 2) _ _ (by omega) (by omega)
    · rw [if_neg hb]; exact ⟨_, rfl⟩

/-- The flat loader returns on every image: the fuel never runs out. -/
theorem read_directory_sectors_ddp_total (image buf : List Nat) :
    ∃ r, read_directory_sectors_ddp image buf = some r :=
  ddp_loop_total image 8 1 0 buf (by omega) (by omega)

/-- The interleaved loader returns on every image: the fuel never runs out. -/
theorem read_directory_sectors_dsk_total (image buf : List Nat) :
    ∃ r, read_directory_sectors_dsk image buf = some r :=
  dsk_loop_total image 8 1 0 buf (by omega) (by omega)

/-! ## Lemmas on the directory walk -/

theorem sizeof_DirectoryEntry_eq : sizeof_DirectoryEntry = 26 := by decide

theorem offsetof_filename : offsetof .filename = 0 := by decide

theorem offsetof_attributes : offsetof .attributes = 12 := by decide

theorem eos_ls_filename_loop_eq (buf : List Nat) :
    ∀ (l : List Nat) (p : Nat) (out : List Nat), buf.drop p = l → 3 ∈ l →
      eos_ls_filename_loop buf p out = .ok (out ++ before_sentinel l) := by
  intro l
  induction l with
  | nil => intro p out _ h; simp at h
  | cons x xs ih =>
    intro p out hd h3
    have hp : p < buf.length := by
      by_contra hc
      rw [List.drop_of_length_le (by omega)] at hd
      simp at hd
    have hc : buf[p] :: buf.drop (p + 1) = x :: xs := by
      rw [← List.drop_eq_getElem_cons hp]
      exact hd
    have hx : buf[p] = x := (List.cons.inj hc).1
    have hxs : buf.drop (p + 1) = xs := (List.cons.inj hc).2
    rw [eos_ls_filename_loop, dif_pos hp, hx]
    by_cases hx3 : x = 3
    · subst hx3
      simp [before_sentinel]
    · have h3' : 3 ∈ xs := by
        rcases List.mem_cons.mp h3 with h | h
        · exact absurd h.symm hx3
        · exact h
      rw [if_pos hx3, ih (p + 1) (out ++ [x]) hxs h3']
      simp [before_sentinel, List.takeWhile_cons, hx3]

theorem before_sentinel_take (l : List Nat) :
    ∀ n, 3 ∈ l.take n → before_sentinel (l.take n) = before_sentinel l := by
  induction l with
  | nil => intro n h; simp at h
  | cons x xs ih =>
    intro n h
    cases n with
    | zero => simp at h
    | succ n =>
      rw [List.take_succ_cons] at h ⊢
      by_cases hx3 : x = 3
      · subst hx3; simp [before_sentinel]
      · have h3' : 3 ∈ xs.take n := by
          rcases List.mem_cons.mp h with h | h
          · exact absurd h.symm hx3
          · exact h
        have := ih n h3'
        simp only [before_sentinel, List.takeWhile_cons] at this ⊢
        rw [this]

theorem eos_ls_walk_stop (verbose : Bool) (buf : List Nat) (d : Nat) (out : List Nat)
    (h : entry_is_blocks_left buf d = .ok true) :
    eos_ls_walk verbose buf d out = .ok (d, out) := by
  rw [eos_ls_walk]
  split
  · rename_i e he; rw [h] at he; cases he
  · rfl
  · rename_i he; rw [h] at he; cases he

theorem eos_ls_walk_error (verbose : Bool) (buf : List Nat) (d : Nat) (out : List Nat)
    (e : Nat) (h : entry_is_blocks_left buf d = .error e) :
    eos_ls_walk verbose buf d out = .error e := by
  rw [eos_ls_walk]
  split
  · rename_i e2 he; rw [h] at he; cases he; rfl
  · rename_i he; rw [h] at he; cases he
  · rename_i he; rw [h] at he; cases he

theorem eos_ls_walk_next (verbose : Bool) (buf : List Nat) (d : Nat) (out : List Nat)
    (h : entry_is_blocks_left buf d = .ok false) :
    eos_ls_walk verbose buf d out =
      match (if verbose then eos_ls_verbose buf d out else eos_ls_terse buf d out) with
      | .error e => .error e
      | .ok out1 => eos_ls_walk verbose buf (d + sizeof_DirectoryEntry) out1 := by
  rw [eos_ls_walk]
  split
  · rename_i e he; rw [h] at he; cases he
  · rename_i he; rw [h] at he; cases he
  · rfl

theorem entry_is_blocks_left_slot (buf : List Nat) (i : Nat)
    (h : slot_offset i + offsetof .attributes < buf.length) :
    entry_is_blocks_left buf (slot_offset i) =
      .ok (attr_test (slot_attributes buf i) ENTRY_ATTRIBUTE_BLOCKS_LEFT) := by
  simp only [entry_is_blocks_left, read_u8, dif_pos h, slot_attributes, Except.map,
    List.getD_eq_getElem _ _ h]

theorem slot_offset_succ (i : Nat) :
    slot_offset i + sizeof_DirectoryEntry = slot_offset (i + 1) := by
  simp only [slot_offset]; ring

theorem eos_ls_filename_eq (buf : List Nat) (d : Nat) (out : List Nat)
    (h : 3 ∈ filename_field buf d) :
    eos_ls_filename buf d out = .ok (out ++ before_sentinel (filename_field buf d)) := by
  have h3 : 3 ∈ buf.drop (d + offsetof .filename) := List.mem_of_mem_take h
  unfold eos_ls_filename
  rw [eos_ls_filename_loop_eq buf _ _ out rfl h3]
  unfold filename_field at h ⊢
  rw [before_sentinel_take _ _ h]

theorem terse_lines_succ (buf : List Nat) (i n : Nat) :
    terse_lines buf i (n + 1) =
      before_sentinel (filename_field buf (slot_offset i)) ++ [10] ++ terse_lines buf (i + 1) n := by
  simp only [terse_lines, List.range'_succ, List.map_cons, List.flatten_cons]

theorem eos_ls_terse_eq (buf : List Nat) (d : Nat) (out : List Nat)
    (h : 3 ∈ filename_field buf d) :
    eos_ls_terse buf d out = .ok (out ++ before_sentinel (filename_field buf d) ++ [10]) := by
  unfold eos_ls_terse
  rw [eos_ls_filename_eq buf d out h]
  rfl

theorem eos_ls_walk_terse (buf : List Nat) :
    ∀ (n i : Nat) (out : List Nat),
      (∀ j, i ≤ j → j < i + n →
        attr_test (slot_attributes buf j) ENTRY_ATTRIBUTE_BLOCKS_LEFT = false ∧
        3 ∈ filename_field buf (slot_offset j)) →
      slot_offset (i + n) + offsetof .attributes < buf.length →
      attr_test (slot_attributes buf (i + n)) ENTRY_ATTRIBUTE_BLOCKS_LEFT = true →
      eos_ls_walk false buf (slot_offset i) out =
        .ok (slot_offset (i + n), out ++ terse_lines buf i n) := by
  intro n
  induction n with
  | zero =>
    intro i out _ hin ht
    rw [Nat.add_zero] at hin ht ⊢
    rw [eos_ls_walk_stop false buf _ out (by rw [entry_is_blocks_left_slot buf i hin, ht])]
    simp [terse_lines]
  | succ n ih =>
    intro i out hs hin ht
    have hi := hs i (Nat.le_refl i) (by omega)
    have hlt : slot_offset i + offsetof .attributes < buf.length := by
      have : slot_offset i ≤ slot_offset (i + (n + 1)) := by
        simp only [slot_offset]; exact Nat.mul_le_mul_right _ (by omega)
      omega
    rw [eos_ls_walk_next false buf _ out (by rw [entry_is_blocks_left_slot buf i hlt, hi.1])]
    simp only [Bool.false_eq_true, if_false]
    rw [eos_ls_terse_eq buf _ out hi.2]
    simp only
    rw [slot_offset_succ, ih (i + 1) _ (fun j h1 h2 => hs j (by omega) (by omega))
      (by rw [show i + 1 + n = i + (n + 1) from by omega]; exact hin)
      (by rw [show i + 1 + n = i + (n + 1) from by omega]; exact ht)]
    rw [terse_lines_succ, show i + 1 + n = i + (n + 1) from by omega]
    simp only [List.append_assoc]

theorem length_sample_directory : sample_directory.length = 7168 := by
  simp only [sample_directory, List.length_append, List.length_cons, List.length_nil,
    List.length_replicate]

theorem fails_outside_pure {α : Type} (buf : List Nat) (a : α) :
    fails_outside buf (pure a : Except Nat α) := by
  intro e h; cases h

theorem fails_outside_ok {α : Type} (buf : List Nat) (a : α) :
    fails_outside buf (Except.ok a : Except Nat α) := by
  intro e h; cases h

theorem fails_outside_bind {α β : Type} (buf : List Nat) (x : Except Nat α)
    (f : α → Except Nat β) (hx : fails_outside buf x) (hf : ∀ a, fails_outside buf (f a)) :
    fails_outside buf (x >>= f) := by
  intro e h
  cases x with
  | error e2 =>
    have : e2 = e := by
      simpa [bind, Except.bind] using h
    exact hx e (by rw [this])
  | ok a => exact hf a e h

theorem fails_outside_map {α β : Type} (buf : List Nat) (x : Except Nat α) (f : α → β)
    (hx : fails_outside buf x) : fails_outside buf (x.map f) := by
  intro e h
  cases x with
  | error e2 =>
    have : e2 = e := by
      simpa [Except.map] using h
    exact hx e (by rw [this])
  | ok a => simp [Except.map] at h

theorem fails_outside_read_u8 (buf : List Nat) (i : Nat) : fails_outside buf (read_u8 buf i) := by
  intro e h
  unfold read_u8 at h
  split at h
  · cases h
  · cases h; omega

theorem fails_outside_read_u16 (buf : List Nat) (i : Nat) :
    fails_outside buf (read_u16 buf i) := by
  intro e h
  unfold read_u16 at h
  split at h
  · rename_i e2 h2; cases h; exact fails_outside_read_u8 buf i e h2
  · split at h
    · rename_i e2 h2; cases h; exact fails_outside_read_u8 buf (i + 1) e h2
    · cases h

theorem fails_outside_read_u32 (buf : List Nat) (i : Nat) :
    fails_outside buf (read_u32 buf i) := by
  intro e h
  unfold read_u32 at h
  split at h
  · rename_i e2 h2; cases h; exact fails_outside_read_u16 buf i e h2
  · split at h
    · rename_i e2 h2; cases h; exact fails_outside_read_u16 buf (i + 2) e h2
    · cases h

theorem fails_outside_filename_loop (buf : List Nat) :
    ∀ (n p : Nat) (out : List Nat), buf.length - p ≤ n →
      fails_outside buf (eos_ls_filename_loop buf p out) := by
  intro n
  induction n with
  | zero =>
    intro p out hn e h
    rw [eos_ls_filename_loop, dif_neg (by omega)] at h
    cases h; omega
  | succ n ih =>
    intro p out hn e h
    rw [eos_ls_filename_loop] at h
    split at h
    · split at h
      · exact ih (p + 1) _ (by omega) e h
      · cases h
    · cases h; omega

theorem fails_outside_filename (buf : List Nat) (d : Nat) (out : List Nat) :
    fails_outside buf (eos_ls_filename buf d out) :=
  fails_outside_filename_loop buf _ _ out (Nat.le_refl _)

theorem fails_outside_terse (buf : List Nat) (d : Nat) (out : List Nat) :
    fails_outside buf (eos_ls_terse buf d out) :=
  fails_outside_bind buf _ _ (fails_outside_filename buf d out)
    (fun _ => fails_outside_pure buf _)

theorem fails_outside_flags (buf : List Nat) (d : Nat) :
    fails_outside buf (eos_ls_flags buf d) := by
  unfold eos_ls_flags
  refine fails_outside_bind buf _ _ (fails_outside_map buf _ _ (fails_outside_read_u8 buf _)) ?_
  intro _
  refine fails_outside_bind buf _ _ (fails_outside_map buf _ _ (fails_outside_read_u8 buf _)) ?_
  intro _
  refine fails_outside_bind buf _ _ (fails_outside_map buf _ _ (fails_outside_read_u8 buf _)) ?_
  intro _
  refine fails_outside_bind buf _ _ (fails_outside_map buf _ _ (fails_outside_read_u8 buf _)) ?_
  intro _
  refine fails_outside_bind buf _ _ (fails_outside_map buf _ _ (fails_outside_read_u8 buf _)) ?_
  intro _
  refine fails_outside_bind buf _ _ (fails_outside_map buf _ _ (fails_outside_read_u8 buf _)) ?_
  intro _
  refine fails_outside_bind buf _ _ (fails_outside_map buf _ _ (fails_outside_read_u8 buf _)) ?_
  intro _
  refine fails_outside_bind buf _ _ (fails_outside_map buf _ _ (fails_outside_read_u8 buf _)) ?_
  intro _
  exact fails_outside_pure buf _

theorem fails_outside_verbose (buf : List Nat) (d : Nat) (out : List Nat) :
    fails_outside buf (eos_ls_verbose buf d out) := by
  unfold eos_ls_verbose
  refine fails_outside_bind buf _ _ (fails_outside_flags buf d) ?_
  intro _
  refine fails_outside_bind buf _ _ (fails_outside_read_u32 buf _) ?_
  intro _
  refine fails_outside_bind buf _ _ (fails_outside_read_u16 buf _) ?_
  intro _
  refine fails_outside_bind buf _ _ (fails_outside_read_u16 buf _) ?_
  intro _
  refine fails_outside_bind buf _ _ (fails_outside_read_u16 buf _) ?_
  intro _
  refine fails_outside_bind buf _ _ (fails_outside_read_u8 buf _) ?_
  intro _
  refine fails_outside_bind buf _ _ (fails_outside_read_u8 buf _) ?_
  intro _
  refine fails_outside_bind buf _ _ (fails_outside_read_u8 buf _) ?_
  intro _
  refine fails_outside_bind buf _ _ (fails_outside_filename buf d _) ?_
  intro _
  exact fails_outside_pure buf _

theorem eos_ls_walk_no_terminator (verbose : Bool) (buf : List Nat)
    (hno : ∀ i, 1 ≤ i → slot_offset i + offsetof .attributes < buf.length →
      attr_test (slot_attributes buf i) ENTRY_ATTRIBUTE_BLOCKS_LEFT = false) :
    ∀ (n i : Nat) (out : List Nat), 1 ≤ i → buf.length - slot_offset i ≤ n →
      ∃ e, buf.length ≤ e ∧ eos_ls_walk verbose buf (slot_offset i) out = .error e := by
  intro n
  induction n with
  | zero =>
    intro i out hi hn
    have hlt : ¬ slot_offset i + offsetof .attributes < buf.length := by omega
    refine ⟨slot_offset i + offsetof .attributes, by omega, ?_⟩
    apply eos_ls_walk_error
    simp only [entry_is_blocks_left, read_u8, dif_neg hlt, Except.map]
  | succ n ih =>
    intro i out hi hn
    by_cases hlt : slot_offset i + offsetof .attributes < buf.length
    · rw [eos_ls_walk_next verbose buf _ out
        (by rw [entry_is_blocks_left_slot buf i hlt, hno i hi hlt])]
      have hbody : fails_outside buf
          (if verbose = true then eos_ls_verbose buf (slot_offset i) out
            else eos_ls_terse buf (slot_offset i) out) := by
        split
        · exact fails_outside_verbose buf _ out
        · exact fails_outside_terse buf _ out
      cases hb : (if verbose = true then eos_ls_verbose buf (slot_offset i) out
            else eos_ls_terse buf (slot_offset i) out) with
      | error e => exact ⟨e, hbody e hb, rfl⟩
      | ok out1 =>
        simp only
        rw [slot_offset_succ]
        refine ih (i + 1) out1 (by omega) ?_
        have : slot_offset (i + 1) = slot_offset i + 26 := by
          rw [← slot_offset_succ, sizeof_DirectoryEntry_eq]
        omega
    · refine ⟨slot_offset i + offsetof .attributes, by omega, ?_⟩
      apply eos_ls_walk_error
      simp only [entry_is_blocks_left, read_u8, dif_neg hlt, Except.map]

theorem eos_ls_filename_loop_no_sentinel (buf : List Nat) :
    ∀ (l : List Nat) (p : Nat) (out : List Nat), buf.drop p = l → p ≤ buf.length → 3 ∉ l →
      eos_ls_filename_loop buf p out = .error buf.length := by
  intro l
  induction l with
  | nil =>
    intro p out hd hp _
    have hge : buf.length ≤ p := by
      by_contra hc
      rw [List.drop_eq_getElem_cons (by omega : p < buf.length)] at hd
      cases hd
    rw [eos_ls_filename_loop, dif_neg (by omega)]
    exact congrArg Except.error (by omega)
  | cons x xs ih =>
    intro p out hd _ h3
    have hp : p < buf.length := by
      by_contra hc
      rw [List.drop_of_length_le (by omega)] at hd
      simp at hd
    have hc : buf[p] :: buf.drop (p + 1) = x :: xs := by
      rw [← List.drop_eq_getElem_cons hp]
      exact hd
    have hx : buf[p] = x := (List.cons.inj hc).1
    have hxs : buf.drop (p + 1) = xs := (List.cons.inj hc).2
    have hx3 : x ≠ 3 := fun h => h3 (by rw [h]; exact List.mem_cons_self _ _)
    have hxs3 : 3 ∉ xs := fun h => h3 (List.mem_cons_of_mem _ h)
    rw [eos_ls_filename_loop, dif_pos hp, hx, if_pos hx3]
    exact ih (p + 1) _ hxs (by omega) hxs3

theorem not_mem_drop_zero_buf (p : Nat) : 3 ∉ zero_buf.drop p := by
  intro h
  have h2 : 3 ∈ zero_buf := List.mem_of_mem_drop h
  have h3 := List.eq_of_mem_replicate h2
  cases h3

theorem eos_ls_filename_zero_buf (d : Nat) (out : List Nat) (h : d ≤ 7168) :
    eos_ls_filename zero_buf d out = .error 7168 := by
  unfold eos_ls_filename
  rw [eos_ls_filename_loop_no_sentinel zero_buf _ _ out rfl
    (by rw [length_zero_buf, offsetof_filename]; omega) (not_mem_drop_zero_buf _),
    length_zero_buf]

theorem slot_attributes_zero_buf (i : Nat) : slot_attributes zero_buf i = 0 := by
  unfold slot_attributes
  rw [List.getD_eq_getElem?_getD]
  by_cases h : slot_offset i + offsetof .attributes < 7168
  · rw [getElem?_zero_buf _ h]; rfl
  · rw [List.getElem?_eq_none (by rw [length_zero_buf]; omega)]; rfl

theorem eos_ls_terse_of_walk_error (buf : List Nat) (e : Nat)
    (h : eos_ls_walk false buf (slot_offset 1) [] = .error e) :
    eos_ls false buf = .error e := by
  unfold eos_ls
  simp only [Bool.false_eq_true, if_false, pure_bind, h]
  rfl

theorem eos_ls_verbose_of_label_error (buf : List Nat) (e : Nat)
    (h : eos_ls_filename buf (slot_offset 0) volume_text = .error e) :
    eos_ls true buf = .error e := by
  unfold eos_ls
  simp only [if_true, h]
  rfl

theorem eos_ls_walk_terse_error (buf : List Nat) (d e : Nat) (out : List Nat)
    (hbl : entry_is_blocks_left buf d = .ok false)
    (h : eos_ls_filename buf d out = .error e) :
    eos_ls_walk false buf d out = .error e := by
  rw [eos_ls_walk_next false buf d out hbl]
  simp only [Bool.false_eq_true, if_false]
  unfold eos_ls_terse
  rw [h]
  rfl

theorem eos_ls_terse_eq_walk (buf : List Nat) :
    eos_ls false buf = (eos_ls_walk false buf (slot_offset 1) []).map Prod.snd := by
  unfold eos_ls
  simp only [Bool.false_eq_true, if_false, pure_bind]
  cases eos_ls_walk false buf (slot_offset 1) [] with
  | error e => rfl
  | ok r => rfl

theorem wrap_int32_of_range (x : Int) (h1 : -2147483648 ≤ x) (h2 : x < 2147483648) :
    wrap_int32 x = x := by
  unfold wrap_int32; omega

theorem read_u8_eq (buf : List Nat) (i : Nat) (h : i < buf.length) :
    read_u8 buf i = .ok (u8_at buf i) := by
  simp only [read_u8, dif_pos h, u8_at, List.getD_eq_getElem _ _ h]

theorem read_u16_eq (buf : List Nat) (i : Nat) (h : i + 1 < buf.length) :
    read_u16 buf i = .ok (u16_at buf i) := by
  simp only [read_u16, read_u8_eq buf i (by omega), read_u8_eq buf (i + 1) h, u16_at]

theorem read_u32_eq (buf : List Nat) (i : Nat) (h : i + 3 < buf.length) :
    read_u32 buf i = .ok (u32_at buf i) := by
  simp only [read_u32, read_u16_eq buf i (by omega), read_u16_eq buf (i + 2) (by omega), u32_at]

theorem eos_ls_flags_eq (buf : List Nat) (d : Nat) (h : d + 12 < buf.length) :
    eos_ls_flags buf d = .ok (flag_mask (u8_at buf (d + 12))) := by
  simp only [eos_ls_flags, entry_is_blocks_left, entry_is_exec_protect, entry_is_deleted,
    entry_is_system_file, entry_is_user_file, entry_is_read_protected,
    entry_is_write_protected, entry_is_locked, offsetof_attributes, read_u8_eq buf _ h,
    Except.map, flag_mask]
  rfl

theorem eos_ls_verbose_eq (buf : List Nat) (d : Nat) (out : List Nat)
    (hin : d + sizeof_DirectoryEntry ≤ buf.length) (h3 : 3 ∈ filename_field buf d) :
    eos_ls_verbose buf d out =
      .ok (out ++ verbose_columns buf d ++ before_sentinel (filename_field buf d) ++ [10]) := by
  rw [sizeof_DirectoryEntry_eq] at hin
  have o1 : offsetof .start_block = 13 := by decide
  have o2 : offsetof .allocated_blocks = 17 := by decide
  have o3 : offsetof .blocks_used = 19 := by decide
  have o4 : offsetof .last_block_bytes_used = 21 := by decide
  have o5 : offsetof .year = 23 := by decide
  have o6 : offsetof .month = 24 := by decide
  have o7 : offsetof .day = 25 := by decide
  unfold eos_ls_verbose
  rw [eos_ls_flags_eq buf d (by omega), o1, o2, o3, o4, o5, o6, o7,
    read_u32_eq buf _ (by omega), read_u16_eq buf _ (by omega), read_u16_eq buf _ (by omega),
    read_u16_eq buf _ (by omega), read_u8_eq buf _ (by omega), read_u8_eq buf _ (by omega),
    read_u8_eq buf _ (by omega)]
  simp only [bind, Except.bind]
  rw [eos_ls_filename_eq buf d _ h3]
  simp only [pure, Except.pure, verbose_columns, List.append_assoc]

theorem length_empty_file_directory : empty_file_directory.length = 7168 := by
  simp only [empty_file_directory, List.length_append, List.length_cons, List.length_nil,
    List.length_replicate]

/-- The verbose row of `FOO` in the sample directory:
`----U---          9   1074 / 4096   84-05-06 FOO`. -/
theorem eos_ls_verbose_sample_directory :
    eos_ls_verbose sample_directory (slot_offset 1) [] =
      .ok [45, 45, 45, 45, 85, 45, 45, 45, 32, 32, 32, 32, 32, 32, 32, 32, 32, 32, 57, 32,
        32, 32, 49, 48, 55, 52, 32, 47, 32, 52, 48, 57, 54, 32, 32,
        32, 56, 52, 45, 48, 53, 45, 48, 54, 32, 70, 79, 79, 10] :=
  (eos_ls_verbose_eq sample_directory (slot_offset 1) []
    (by rw [length_sample_directory]; decide) (by decide)).trans rfl

theorem eos_ls_verbose_of_walk_error (buf : List Nat) (e : Nat) (out0 : List Nat)
    (h0 : eos_ls_filename buf (slot_offset 0) volume_text = .ok out0)
    (h : eos_ls_walk true buf (slot_offset 1) (out0 ++ [10, 10]) = .error e) :
    eos_ls true buf = .error e := by
  unfold eos_ls
  simp only [if_true, h0, Except.map, bind, Except.bind, h]

/-- On a buffer of any length in which no slot from slot 1 on has the
BLOCKS_LEFT bit, neither listing returns: each ends in a read outside the
buffer. -/
theorem eos_ls_no_terminator (verbose : Bool) (buf : List Nat)
    (hno : ∀ i, 1 ≤ i → slot_offset i + offsetof .attributes < buf.length →
      attr_test (slot_attributes buf i) ENTRY_ATTRIBUTE_BLOCKS_LEFT = false) :
    ∃ e, buf.length ≤ e ∧ eos_ls verbose buf = .error e := by
  cases verbose with
  | false =>
    obtain ⟨e, he, hw⟩ := eos_ls_walk_no_terminator false buf hno _ 1 [] (Nat.le_refl 1)
      (Nat.le_refl _)
    exact ⟨e, he, eos_ls_terse_of_walk_error buf e hw⟩
  | true =>
    cases h0 : eos_ls_filename buf (slot_offset 0) volume_text with
    | error e =>
      exact ⟨e, fails_outside_filename buf _ _ e h0, eos_ls_verbose_of_label_error buf e h0⟩
    | ok out0 =>
      obtain ⟨e, he, hw⟩ := eos_ls_walk_no_terminator true buf hno _ 1 (out0 ++ [10, 10])
        (Nat.le_refl 1) (Nat.le_refl _)
      exact ⟨e, he, eos_ls_verbose_of_walk_error buf e out0 h0 hw⟩

/-! ## Lemmas on the predicates, the loaders' failures and the entry points -/

theorem attr_test_eq_decide (a mask : Nat) : attr_test a mask = decide (a &&& mask = mask) := by
  unfold attr_test
  by_cases h : a &&& mask = mask
  · simp [h]
  · simp [h]

theorem and_two_pow_eq_iff (a k : Nat) : a &&& 2 ^ k = 2 ^ k ↔ a.testBit k = true := by
  constructor
  · intro h
    have := Nat.testBit_and a (2 ^ k) k
    rw [h, Nat.testBit_two_pow_self] at this
    simpa using this.symm
  · intro h
    apply Nat.eq_of_testBit_eq
    intro i
    rw [Nat.testBit_and, Nat.testBit_two_pow]
    by_cases hi : k = i
    · subst hi; simp [h]
    · simp [hi]

theorem attr_test_two_pow (a k : Nat) : attr_test a (2 ^ k) = a.testBit k := by
  rw [attr_test_eq_decide]
  by_cases h : a.testBit k = true
  · rw [h]; exact decide_eq_true ((and_two_pow_eq_iff a k).mpr h)
  · have h2 : a.testBit k = false := by simpa using h
    rw [h2]
    exact decide_eq_false (fun hc => h ((and_two_pow_eq_iff a k).mp hc))

theorem length_fread_at_short (image : List Nat) (o n : Nat) (hn : 0 < n)
    (h : image.length < o + n) :
    (fread_at image o n).length ≠ n := by
  simp only [fread_at, List.length_take, List.length_drop]; omega

theorem ddp_step_le (image buf : List Nat) (fuel b l o b2 l2 : Nat) (hb : b < 8)
    (ho : b * 1024 = o) (hb2 : b + 2 = b2) (hl2 : l + 1024 = l2)
    (h : o + 1024 ≤ image.length) :
    read_directory_sectors_ddp_loop image (fuel + 1) b l buf =
      read_directory_sectors_ddp_loop image fuel b2 l2
        (store buf l (fread_at image o 1024)) := by
  rw [read_directory_sectors_ddp_loop]
  have h2 : incr_uint8 (incr_uint8 b) = b + 2 := by
    simp only [incr_uint8]; omega
  have h3 := length_fread_at image o 1024 h
  simp only [BLOCK_SIZE, h2, ho, h3, if_pos hb, hb2, hl2]
  simp

theorem ddp_fail (image buf : List Nat) (fuel b l o : Nat) (hb : b < 8)
    (ho : b * 1024 = o) (h : image.length < o + 1024) :
    read_directory_sectors_ddp_loop image (fuel + 1) b l buf =
      some (LoadResult.mk false (store buf l (fread_at image o 1024)) (some b)) := by
  rw [read_directory_sectors_ddp_loop]
  have h3 := length_fread_at_short image o 1024 (by omega) h
  simp only [BLOCK_SIZE, ho, if_pos hb, if_pos h3]

theorem dsk_fail_upper (image buf : List Nat) (fuel b l o1 : Nat) (hb : b < 8)
    (h1 : dsk_o1 b = o1) (h : image.length < o1 + 512) :
    read_directory_sectors_dsk_loop image (fuel + 1) b l buf =
      some (LoadResult.mk false (store buf l (fread_at image o1 512)) (some b)) := by
  rw [read_directory_sectors_dsk_loop]
  have h3 := length_fread_at_short image o1 512 (by omega) h
  simp only [DISK_SECTOR_SIZE, h1, if_pos hb, if_pos h3]

theorem dsk_fail_lower (image buf : List Nat) (fuel b l o1 o2 l1 : Nat) (hb : b < 8)
    (h1 : dsk_o1 b = o1) (h2 : dsk_o2 b = o2) (hl1 : l + 512 = l1)
    (hi1 : o1 + 512 ≤ image.length) (h : image.length < o2 + 512) :
    read_directory_sectors_dsk_loop image (fuel + 1) b l buf =
      some (LoadResult.mk false
        (store (store buf l (fread_at image o1 512)) l1 (fread_at image o2 512)) (some b)) := by
  rw [read_directory_sectors_dsk_loop]
  have e1 := length_fread_at image o1 512 hi1
  have h3 := length_fread_at_short image o2 512 (by omega) h
  simp only [DISK_SECTOR_SIZE, h1, h2, e1, hl1, if_pos hb, if_pos h3]
  simp

theorem dsk_offsets_end (b : Nat) (h1 : 1 ≤ b) (h7 : b ≤ 7) :
    dsk_o1 b + 512 ≤ 8192 ∧ dsk_o2 b + 512 ≤ 8192 := by
  interval_cases b <;> decide

theorem ddp_fails_iff_short (image buf : List Nat) :
    ∃ r, read_directory_sectors_ddp image buf = some r ∧
      (r.ok = false ↔ image.length < 8192) := by
  unfold read_directory_sectors_ddp
  by_cases c1 : image.length < 2048
  · exact ⟨_, ddp_fail image buf 7 1 0 1024 (by omega) (by omega) (by omega), by simp; omega⟩
  rw [ddp_step_le image buf 7 1 0 1024 3 1024 (by omega) (by omega) (by omega) (by omega)
    (by omega)]
  by_cases c3 : image.length < 4096
  · exact ⟨_, ddp_fail image _ 6 3 1024 3072 (by omega) (by omega) (by omega), by simp; omega⟩
  rw [ddp_step_le image _ 6 3 1024 3072 5 2048 (by omega) (by omega) (by omega) (by omega)
    (by omega)]
  by_cases c5 : image.length < 6144
  · exact ⟨_, ddp_fail image _ 5 5 2048 5120 (by omega) (by omega) (by omega), by simp; omega⟩
  rw [ddp_step_le image _ 5 5 2048 5120 7 3072 (by omega) (by omega) (by omega) (by omega)
    (by omega)]
  by_cases c7 : image.length < 8192
  · exact ⟨_, ddp_fail image _ 4 7 3072 7168 (by omega) (by omega) (by omega), by simp; omega⟩
  rw [ddp_step_le image _ 4 7 3072 7168 9 4096 (by omega) (by omega) (by omega) (by omega)
    (by omega)]
  exact ⟨_, ddp_exit image _ 3 9 4096 (by omega), by simp; omega⟩

theorem dsk_fails_iff_short (image buf : List Nat) :
    ∃ r, read_directory_sectors_dsk image buf = some r ∧
      (r.ok = false ↔ image.length < 8192) := by
  unfold read_directory_sectors_dsk
  by_cases c1 : image.length < 1536
  · exact ⟨_, dsk_fail_upper image buf 7 1 0 1024 (by omega) (by decide) (by omega),
      by simp; omega⟩
  by_cases c2 : image.length < 4096
  · exact ⟨_, dsk_fail_lower image buf 7 1 0 1024 3584 512 (by omega) (by decide) (by decide)
      (by omega) (by omega) (by omega), by simp; omega⟩
  rw [dsk_step image buf 7 1 0 1024 3584 3 512 1024 (by omega) (by decide) (by decide)
    (by omega) (by omega) (by omega) (by omega) (by omega)]
  rw [dsk_step image _ 6 3 1024 3072 1536 5 1536 2048 (by omega) (by decide) (by decide)
    (by omega) (by omega) (by omega) (by omega) (by omega)]
  by_cases c5 : image.length < 5632
  · exact ⟨_, dsk_fail_upper image _ 5 5 2048 5120 (by omega) (by decide) (by omega),
      by simp; omega⟩
  by_cases c6 : image.length < 8192
  · exact ⟨_, dsk_fail_lower image _ 5 5 2048 5120 7680 2560 (by omega) (by decide) (by decide)
      (by omega) (by omega) (by omega), by simp; omega⟩
  rw [dsk_step image _ 5 5 2048 5120 7680 7 2560 3072 (by omega) (by decide) (by decide)
    (by omega) (by omega) (by omega) (by omega) (by omega)]
  rw [dsk_step image _ 4 7 3072 7168 5632 9 3584 4096 (by omega) (by decide) (by decide)
    (by omega) (by omega) (by omega) (by omega) (by omega)]
  exact ⟨_, dsk_exit image _ 3 9 4096 (by omega), by simp; omega⟩

theorem incr_uint8_twice (b : Nat) (hb : b < 8) : incr_uint8 (incr_uint8 b) = b + 2 := by
  simp only [incr_uint8]; omega

theorem dsk_offsets_odd (b : Nat) (hodd : b % 2 = 1) (hb : b < 8) :
    1024 ≤ dsk_o1 b ∧ 1024 ≤ dsk_o2 b := by
  have h : b = 1 ∨ b = 3 ∨ b = 5 ∨ b = 7 := by omega
  rcases h with h | h | h | h <;> subst h <;> decide

theorem dsk_seeks_ge (image : List Nat) :
    ∀ (fuel b : Nat), b % 2 = 1 →
      (read_directory_sectors_dsk_seeks image fuel b).all (fun o => decide (1024 ≤ o)) = true := by
  intro fuel
  induction fuel with
  | zero => intro b _; rfl
  | succ fuel ih =>
    intro b hodd
    rw [read_directory_sectors_dsk_seeks]
    by_cases hb : b < 8
    · have ho := dsk_offsets_odd b hodd hb
      have hi := ih (incr_uint8 (incr_uint8 b)) (by rw [incr_uint8_twice b hb]; omega)
      rw [if_pos hb]
      dsimp only
      split
      · simp only [List.all_cons, List.all_nil, Bool.and_true, decide_eq_true_eq]
        exact ho.1
      · split
        · simp only [List.all_cons, List.all_nil, Bool.and_true, Bool.and_eq_true,
            decide_eq_true_eq]
          exact ho
        · simp only [List.all_cons, Bool.and_eq_true, decide_eq_true_eq]
          exact ⟨ho.1, ho.2, hi⟩
    · rw [if_neg hb]; rfl

theorem ddp_seeks_ge (image : List Nat) :
    ∀ (fuel b : Nat), 1 ≤ b →
      (read_directory_sectors_ddp_seeks image fuel b).all (fun o => decide (1024 ≤ o)) = true := by
  intro fuel
  induction fuel with
  | zero => intro b _; rfl
  | succ fuel ih =>
    intro b h1
    rw [read_directory_sectors_ddp_seeks]
    by_cases hb : b < 8
    · have ho : 1024 ≤ b * BLOCK_SIZE := by simp only [BLOCK_SIZE]; omega
      have hi := ih (incr_uint8 (incr_uint8 b)) (by rw [incr_uint8_twice b hb]; omega)
      rw [if_pos hb]
      dsimp only
      split
      · simp only [List.all_cons, List.all_nil, Bool.and_true, decide_eq_true_eq]
        exact ho
      · simp only [List.all_cons, Bool.and_eq_true, decide_eq_true_eq]
        exact ⟨ho, hi⟩
    · rw [if_neg hb]; rfl

theorem fread_at_append (block0 rest : List Nat) (o n : Nat) (h : block0.length ≤ o) :
    fread_at (block0 ++ rest) o n = fread_at rest (o - block0.length) n := by
  unfold fread_at
  have ho : o = block0.length + (o - block0.length) := by omega
  rw [ho, List.drop_append, ← ho]

theorem dsk_loop_congr (image image2 : List Nat)
    (h : ∀ o, 1024 ≤ o → fread_at image o 512 = fread_at image2 o 512) :
    ∀ (fuel b l : Nat) (buf : List Nat), b % 2 = 1 →
      read_directory_sectors_dsk_loop image fuel b l buf =
        read_directory_sectors_dsk_loop image2 fuel b l buf := by
  intro fuel
  induction fuel with
  | zero => intro b l buf _; rfl
  | succ fuel ih =>
    intro b l buf hodd
    rw [read_directory_sectors_dsk_loop, read_directory_sectors_dsk_loop]
    by_cases hb : b < 8
    · have ho := dsk_offsets_odd b hodd hb
      rw [if_pos hb, if_pos hb]
      dsimp only [DISK_SECTOR_SIZE]
      rw [h _ ho.1, h _ ho.2]
      have hodd2 : incr_uint8 (incr_uint8 b) % 2 = 1 := by
        rw [incr_uint8_twice b hb]; omega
      split
      · rfl
      · split
        · rfl
        · exact ih _ _ _ hodd2
    · rw [if_neg hb, if_neg hb]

theorem ddp_loop_congr (image image2 : List Nat)
    (h : ∀ o, 1024 ≤ o → fread_at image o 1024 = fread_at image2 o 1024) :
    ∀ (fuel b l : Nat) (buf : List Nat), 1 ≤ b →
      read_directory_sectors_ddp_loop image fuel b l buf =
        read_directory_sectors_ddp_loop image2 fuel b l buf := by
  intro fuel
  induction fuel with
  | zero => intro b l buf _; rfl
  | succ fuel ih =>
    intro b l buf h1
    rw [read_directory_sectors_ddp_loop, read_directory_sectors_ddp_loop]
    by_cases hb : b < 8
    · have ho : 1024 ≤ b * 1024 := by omega
      rw [if_pos hb, if_pos hb]
      dsimp only [BLOCK_SIZE]
      rw [h _ ho]
      split
      · rfl
      · exact ih _ _ _ (by rw [incr_uint8_twice b hb]; omega)
    · rw [if_neg hb, if_neg hb]

theorem fread_at_block0 (block0 block1 rest : List Nat) (n : Nat)
    (h0 : block0.length = 1024) (h1 : block1.length = 1024) :
    ∀ o, 1024 ≤ o → fread_at (block0 ++ rest) o n = fread_at (block1 ++ rest) o n := by
  intro o ho
  rw [fread_at_append block0 rest o n (by omega), fread_at_append block1 rest o n (by omega),
    h0, h1]

theorem create_image_sz_small (total_blocks : Nat) (h1 : 1 ≤ total_blocks)
    (h2 : total_blocks ≤ 4194304) :
    MakeImage.create_image_sz total_blocks = total_blocks * 1024 - 1 := by
  unfold MakeImage.create_image_sz
  omega

theorem starts_with_append (needle rest : List Nat) :
    starts_with needle (needle ++ rest) = true := by
  induction needle with
  | nil => rfl
  | cons n ns ih =>
    rw [List.cons_append, starts_with, ih]
    simp only [beq_self_eq_true, Bool.and_self]

theorem strstr_append_self (stem needle : List Nat) :
    strstr (stem ++ needle) needle = true := by
  induction stem with
  | nil =>
    cases needle with
    | nil => rfl
    | cons n ns =>
      have h := starts_with_append (n :: ns) []
      rw [List.append_nil] at h
      simp only [List.nil_append, strstr, h, Bool.true_or]
  | cons c cs ih =>
    rw [List.cons_append, strstr, ih, Bool.or_true]

theorem eos_ls_flags_eq_map (buf : List Nat) (d : Nat) :
    eos_ls_flags buf d = (read_u8 buf (d + offsetof .attributes)).map flag_mask := by
  simp only [eos_ls_flags, entry_is_blocks_left, entry_is_exec_protect, entry_is_deleted,
    entry_is_system_file, entry_is_user_file, entry_is_read_protected,
    entry_is_write_protected, entry_is_locked]
  cases read_u8 buf (d + offsetof .attributes) with
  | error e => rfl
  | ok a => rfl

theorem flag_mask_eq_bits (a : Nat) :
    flag_mask a =
      (List.range 8).map (fun i => if a.testBit i then flag_letters.getD i 0 else 45) := by
  have h0 := attr_test_two_pow a 0
  have h1 := attr_test_two_pow a 1
  have h2 := attr_test_two_pow a 2
  have h3 := attr_test_two_pow a 3
  have h4 := attr_test_two_pow a 4
  have h5 := attr_test_two_pow a 5
  have h6 := attr_test_two_pow a 6
  have h7 := attr_test_two_pow a 7
  simp only [Nat.reducePow] at h0 h1 h2 h3 h4 h5 h6 h7
  simp only [flag_mask, ENTRY_ATTRIBUTE_BLOCKS_LEFT, ENTRY_ATTRIBUTE_EXEC_PROTECT,
    ENTRY_ATTRIBUTE_DELETED, ENTRY_ATTRIBUTE_SYSTEM_FILE, ENTRY_ATTRIBUTE_USER_FILE,
    ENTRY_ATTRIBUTE_READ_PROTECT, ENTRY_ATTRIBUTE_WRITE_PROTECT, ENTRY_ATTRIBUTE_LOCKED,
    h0, h1, h2, h3, h4, h5, h6, h7, flag_char]
  rfl

theorem flag_mask_injective (a b : Nat) (ha : a < 256) (hb : b < 256)
    (h : flag_mask a = flag_mask b) : a = b := by
  rw [flag_mask_eq_bits, flag_mask_eq_bits] at h
  apply Nat.eq_of_testBit_eq
  intro i
  by_cases hi : i < 8
  · have hg := congrArg (fun l => l.getD i 0) h
    simp only [List.getD_eq_getElem?_getD, List.getElem?_map, List.getElem?_range hi,
      Option.map_some', Option.getD_some] at hg
    have hl : flag_letters[i]?.getD 0 ≠ 45 := by
      interval_cases i <;> decide
    by_cases h1 : a.testBit i = true <;> by_cases h2 : b.testBit i = true
    · rw [h1, h2]
    · rw [if_pos h1, if_neg h2] at hg; exact absurd hg hl
    · rw [if_neg h1, if_pos h2] at hg; exact absurd hg.symm hl
    · simp only [Bool.not_eq_true] at h1 h2; rw [h1, h2]
  · have hp : (256 : Nat) ≤ 2 ^ i := by
      have : (2 : Nat) ^ 8 ≤ 2 ^ i := Nat.pow_le_pow_right (by decide) (by omega)
      simpa using this
    rw [Nat.testBit_lt_two_pow (by omega : a < 2 ^ i),
      Nat.testBit_lt_two_pow (by omega : b < 2 ^ i)]

theorem verbose_lines_succ (buf : List Nat) (i n : Nat) :
    verbose_lines buf i (n + 1) =
      verbose_columns buf (slot_offset i)
        ++ before_sentinel (filename_field buf (slot_offset i)) ++ [10]
        ++ verbose_lines buf (i + 1) n := by
  simp only [verbose_lines, List.range'_succ, List.map_cons, List.flatten_cons]

theorem slot_offset_mono (i j : Nat) (h : i ≤ j) : slot_offset i ≤ slot_offset j := by
  simp only [slot_offset]; exact Nat.mul_le_mul_right _ h

theorem eos_ls_walk_verbose (buf : List Nat) :
    ∀ (n i : Nat) (out : List Nat),
      (∀ j, i ≤ j → j < i + n →
        attr_test (slot_attributes buf j) ENTRY_ATTRIBUTE_BLOCKS_LEFT = false ∧
        3 ∈ filename_field buf (slot_offset j)) →
      slot_offset (i + n) + sizeof_DirectoryEntry ≤ buf.length →
      attr_test (slot_attributes buf (i + n)) ENTRY_ATTRIBUTE_BLOCKS_LEFT = true →
      eos_ls_walk true buf (slot_offset i) out =
        .ok (slot_offset (i + n), out ++ verbose_lines buf i n) := by
  intro n
  induction n with
  | zero =>
    intro i out _ hin ht
    rw [Nat.add_zero] at hin ht ⊢
    rw [eos_ls_walk_stop true buf _ out
      (by rw [entry_is_blocks_left_slot buf i
            (by rw [offsetof_attributes]; rw [sizeof_DirectoryEntry_eq] at hin; omega), ht])]
    simp [verbose_lines]
  | succ n ih =>
    intro i out hs hin ht
    have hi := hs i (Nat.le_refl i) (by omega)
    have hmono := slot_offset_mono i (i + (n + 1)) (by omega)
    have hlt : slot_offset i + offsetof .attributes < buf.length := by
      rw [offsetof_attributes]; rw [sizeof_DirectoryEntry_eq] at hin; omega
    rw [eos_ls_walk_next true buf _ out (by rw [entry_is_blocks_left_slot buf i hlt, hi.1])]
    simp only [if_true]
    rw [eos_ls_verbose_eq buf _ out (by omega) hi.2]
    simp only
    rw [slot_offset_succ, ih (i + 1) _ (fun j h1 h2 => hs j (by omega) (by omega))
      (by rw [show i + 1 + n = i + (n + 1) from by omega]; exact hin)
      (by rw [show i + 1 + n = i + (n + 1) from by omega]; exact ht)]
    rw [verbose_lines_succ, show i + 1 + n = i + (n + 1) from by omega]
    simp only [List.append_assoc]

theorem allocated_bytes_printed_eq (allocated_blocks : Nat) (h : allocated_blocks < 65536) :
    allocated_bytes_printed allocated_blocks = allocated_blocks * 1024 := by
  unfold allocated_bytes_printed to_uint32
  rw [wrap_int32_of_range _ (by simp only [BLOCK_SIZE]; omega) (by simp only [BLOCK_SIZE]; omega)]
  simp only [BLOCK_SIZE]
  omega

theorem eos_ls_verbose_listing (buf : List Nat) (k : Nat) (hk : 1 ≤ k)
    (hin : slot_offset k + sizeof_DirectoryEntry ≤ buf.length)
    (hterm : attr_test (slot_attributes buf k) ENTRY_ATTRIBUTE_BLOCKS_LEFT = true)
    (hfirst : ∀ i, 1 ≤ i → i < k →
      attr_test (slot_attributes buf i) ENTRY_ATTRIBUTE_BLOCKS_LEFT = false)
    (hsent : ∀ i, i < k → 3 ∈ filename_field buf (slot_offset i)) :
    eos_ls true buf =
      .ok (volume_text ++ before_sentinel (filename_field buf (slot_offset 0)) ++ [10, 10]
        ++ verbose_lines buf 1 (k - 1) ++ [10, 32]
        ++ fmt_u 10 (allocated_bytes_printed
            (u16_at buf (slot_offset k + offsetof .allocated_blocks)))
        ++ bytes_free_text) := by
  have hk1 : 1 + (k - 1) = k := by omega
  have hw := eos_ls_walk_verbose buf (k - 1) 1
    (volume_text ++ before_sentinel (filename_field buf (slot_offset 0)) ++ [10, 10])
    (fun j h1 h2 => ⟨hfirst j h1 (by omega), hsent j (by omega)⟩)
    (by rw [hk1]; exact hin) (by rw [hk1]; exact hterm)
  rw [hk1] at hw
  have ho : offsetof .allocated_blocks = 17 := by decide
  have hr := read_u16_eq buf (slot_offset k + offsetof .allocated_blocks)
    (by rw [ho]; rw [sizeof_DirectoryEntry_eq] at hin; omega)
  unfold eos_ls
  simp only [if_true, eos_ls_filename_eq buf (slot_offset 0) volume_text (hsent 0 (by omega)),
    Except.map, bind, Except.bind, hw, hr]
  rfl

theorem eos_ls_terse_listing (buf : List Nat) (k : Nat) (hk : 1 ≤ k)
    (hin : slot_offset k + sizeof_DirectoryEntry ≤ buf.length)
    (hterm : attr_test (slot_attributes buf k) ENTRY_ATTRIBUTE_BLOCKS_LEFT = true)
    (hfirst : ∀ i, 1 ≤ i → i < k →
      attr_test (slot_attributes buf i) ENTRY_ATTRIBUTE_BLOCKS_LEFT = false)
    (hsent : ∀ i, 1 ≤ i → i < k → 3 ∈ filename_field buf (slot_offset i)) :
    eos_ls false buf = .ok (terse_lines buf 1 (k - 1)) := by
  have hk1 : 1 + (k - 1) = k := by omega
  have hw := eos_ls_walk_terse buf (k - 1) 1 []
    (fun j h1 h2 => ⟨hfirst j h1 (by omega), hsent j h1 (by omega)⟩)
    (by rw [hk1, offsetof_attributes]; rw [sizeof_DirectoryEntry_eq] at hin; omega)
    (by rw [hk1]; exact hterm)
  unfold eos_ls
  simp only [Bool.false_eq_true, if_false, pure_bind, hw, List.nil_append]
  rfl

theorem length_short_ddp_image : short_ddp_image.length = 2048 := by
  simp only [short_ddp_image, List.length_append, List.length_replicate, List.length_take,
    length_sample_directory]
  decide

theorem fread_at_short_ddp_image_block1 :
    fread_at short_ddp_image 1024 1024 = sample_directory.take 1024 := by
  unfold fread_at short_ddp_image
  rw [List.drop_left' (List.length_replicate _ _)]
  exact List.take_of_length_le (by
    simp only [List.length_take, length_sample_directory]; decide)

theorem fread_at_short_ddp_image_block3 : fread_at short_ddp_image 3072 1024 = [] := by
  unfold fread_at
  rw [List.drop_of_length_le (by rw [length_short_ddp_image]; decide)]
  rfl

theorem drop_sample_directory : sample_directory.drop 1024 = List.replicate 6144 0 := by
  unfold sample_directory
  have hl : ([84, 69, 83, 84, 86, 79, 76, 3, 0, 0, 0, 0, 0, 0, 0, 0, 0, 0, 0, 0, 0, 0, 0, 0, 0, 0] ++
      [70, 79, 79, 3, 0, 0, 0, 0, 0, 0, 0, 0, 16, 9, 0, 0, 0, 4, 0, 2, 0, 50, 0, 84, 5, 6] ++
      [66, 76, 79, 67, 75, 83, 32, 76, 69, 70, 84, 3, 1, 0, 0, 0, 0, 100, 0, 0, 0, 0, 0,
        0, 0, 0] : List Nat).length + 946 = 1024 := by decide
  rw [← hl, List.drop_append, List.drop_replicate]

theorem store_short_ddp_image_block1 :
    store (List.replicate BUF_SIZE 0) 0 (fread_at short_ddp_image 1024 1024) =
      sample_directory := by
  have hlen : (sample_directory.take 1024).length = 1024 := by
    simp only [List.length_take, length_sample_directory]; decide
  rw [fread_at_short_ddp_image_block1]
  unfold store
  rw [hlen, List.take_zero, List.nil_append, BUF_SIZE, List.drop_replicate, Nat.zero_add,
    show 7168 - 1024 = 6144 from by decide, ← drop_sample_directory, List.take_append_drop]

theorem store_nil (buf : List Nat) (l : Nat) : store buf l [] = buf := by
  unfold store
  rw [List.append_nil, List.length_nil, Nat.add_zero, List.take_append_drop]

theorem read_directory_sectors_short_ddp_image :
    read_directory_sectors .DDP short_ddp_image (List.replicate BUF_SIZE 0) =
      some (LoadResult.mk false sample_directory (some 3)) := by
  have hl := length_short_ddp_image
  show read_directory_sectors_ddp short_ddp_image (List.replicate BUF_SIZE 0) = _
  unfold read_directory_sectors_ddp
  rw [ddp_step_le short_ddp_image _ 7 1 0 1024 3 1024 (by omega) (by omega) (by omega)
      (by omega) (by omega),
    ddp_fail short_ddp_image _ 6 3 1024 3072 (by omega) (by omega) (by omega),
    store_short_ddp_image_block1, fread_at_short_ddp_image_block3, store_nil]

theorem eos_ls_terse_sample_directory :
    eos_ls false sample_directory = .ok [70, 79, 79, 10] :=
  eos_ls_terse_listing sample_directory 2 (by decide)
    (by rw [length_sample_directory]; decide) (by decide)
    (fun i h1 h2 => by
      have hi : i = 1 := by omega
      subst hi
      decide)
    (fun i h1 h2 => by
      have hi : i = 1 := by omega
      subst hi
      decide)

/-- Function `main` once an image has been opened: whatever the loader
returns, the listing of the buffer it left is written and the exit status is
0. -/
theorem main_lists_after_any_load (fopen : List Nat → Option (List Nat))
    (argv : List (List Nat)) (verbose : Bool) (imageMode : ImageMode) (image : List Nat)
    (r : LoadResult) (out : List Nat) (hlen : ¬ argv.length < 2)
    (hargs : main_args fopen (argv.drop 1) false .UNKNOWN none =
      .ok (verbose, imageMode, some image))
    (hload : read_directory_sectors imageMode image (List.replicate BUF_SIZE 0) = some r)
    (hls : eos_ls verbose r.buf = .ok out) :
    main fopen argv = some (.ok (ExitResult.mk 0 (block_diagnostic r ++ out))) := by
  unfold main
  rw [if_neg hlen]
  simp only [hargs, hload, hls]

/-! ## The claims -/

/-- C1: for every block number `b` in 1..7 the primary offset is `b*1024`, the
secondary offset is `b*1024 + 2560` when `b mod 4` is 0 or 1 and `b*1024 - 1536`
(a true difference, `1536 ≤ b*1024`) otherwise, and the `int` value assigned
to `o2` is the exact, non-negative integer, so nothing wraps. -/
theorem C1_dsk_offsets (b : Nat) (h1 : 1 ≤ b) (h7 : b ≤ 7) :
    dsk_o1 b = b * 1024 ∧
    (b % 4 = 0 ∨ b % 4 = 1 → dsk_o2 b = b * 1024 + 2560) ∧
    (¬ (b % 4 = 0 ∨ b % 4 = 1) → 1536 ≤ b * 1024 ∧ dsk_o2 b = b * 1024 - 1536) ∧
    dsk_o1_int b = (b : Int) * 1024 ∧
    dsk_o2_int b =
      (if b % 4 = 0 ∨ b % 4 = 1 then (b : Int) * 1024 + 2560 else (b : Int) * 1024 - 1536) ∧
    dsk_o2_int b = (dsk_o2 b : Int) := by
  interval_cases b <;> decide

/-- C1 at `b = 1` and `b = 3`: the offset pairs (1024, 3584) and (3072, 1536). -/
theorem C1_dsk_offsets_witness :
    (dsk_o1 1 = 1024 ∧ dsk_o2 1 = 3584) ∧ (dsk_o1 3 = 3072 ∧ dsk_o2 3 = 1536) :=
  ⟨⟨(C1_dsk_offsets 1 (by decide) (by decide)).1,
    (C1_dsk_offsets 1 (by decide) (by decide)).2.1 (by decide)⟩,
   ⟨(C1_dsk_offsets 3 (by decide) (by decide)).1,
    ((C1_dsk_offsets 3 (by decide) (by decide)).2.2.1 (by decide)).2⟩⟩

/-- C2 fails on the code: on the 8192-byte image whose bytes hold their block
number the flat loader succeeds, yet buffer byte 1024 (first byte of logical
block 2) holds 3, the content of image block 3, where image byte 2048 holds 2,
and buffer byte 4096 (logical block 5) is still the initial 0 where image byte
5120 holds 5: the doubled `blockNum++` visits blocks 1, 3, 5, 7 only. -/
theorem C2_ddp_loads_only_odd_blocks :
    (read_directory_sectors_ddp block_tagged_image zero_buf).map
        (fun r => (r.ok, r.buf[1024]?, r.buf[4096]?)) = some (true, some 3, some 0) ∧
    block_tagged_image[2048]? = some 2 ∧ block_tagged_image[5120]? = some 5 := by
  have hl : 8192 ≤ block_tagged_image.length := by rw [length_block_tagged_image]
  have g1 := ddp_getElem? _ _ hl length_zero_buf 1024
  have g2 := ddp_getElem? _ _ hl length_zero_buf 4096
  rw [read_directory_sectors_ddp_eq _ _ hl] at g1 g2 ⊢
  simp only [Option.map_some', Option.some.injEq] at g1 g2 ⊢
  rw [g1, g2, if_pos (by decide), if_neg (by decide),
    getElem?_block_tagged_image _ (by decide), getElem?_block_tagged_image _ (by decide),
    getElem?_block_tagged_image _ (by decide), getElem?_zero_buf _ (by decide)]
  decide

/-- C3 fails on the code: on the 8192-byte image whose bytes hold their sector
number the interleaved loader succeeds, yet buffer byte 1024 (first byte of
logical block 2) holds 6, the sector at the primary offset of block 3, where
the primary offset 2048 of block 2 holds sector 4, and buffer byte 4096
(logical block 5) is still the initial 0: only 4096 of the 7168 bytes are
filled. -/
theorem C3_dsk_loads_only_odd_blocks :
    (read_directory_sectors_dsk sector_tagged_image zero_buf).map
        (fun r => (r.ok, r.buf[1024]?, r.buf[4096]?)) = some (true, some 6, some 0) ∧
    sector_tagged_image[dsk_o1 2]? = some 4 ∧ sector_tagged_image[dsk_o1 5]? = some 10 := by
  have hl : 8192 ≤ sector_tagged_image.length := by rw [length_sector_tagged_image]
  have g1 := dsk_getElem? _ _ hl length_zero_buf 1024
  have g2 := dsk_getElem? _ _ hl length_zero_buf 4096
  rw [read_directory_sectors_dsk_eq _ _ hl] at g1 g2 ⊢
  simp only [Option.map_some', Option.some.injEq] at g1 g2 ⊢
  rw [if_neg (by decide), if_neg (by decide), if_pos (by decide),
    getElem?_sector_tagged_image _ (by decide)] at g1
  rw [if_neg (by decide), if_neg (by decide), if_neg (by decide), if_neg (by decide),
    if_neg (by decide), if_neg (by decide), if_neg (by decide), if_neg (by decide),
    getElem?_zero_buf _ (by decide)] at g2
  rw [g1, g2, show dsk_o1 2 = 2048 from by decide, show dsk_o1 5 = 5120 from by decide,
    getElem?_sector_tagged_image _ (by decide), getElem?_sector_tagged_image _ (by decide)]
  exact ⟨rfl, rfl, rfl⟩

/-- C4 as stated fails: the packed record is not 24 bytes long. -/
theorem C4_entry_is_not_24_bytes :
    ¬ (sizeof_DirectoryEntry = 24 ∧ ∀ i, slot_offset i = 24 * i) := by
  intro h
  exact absurd h.1 (by decide)

/-- C4 amended: the packed record is 26 bytes long, its members lie at the
offsets 0, 12, 13, 17, 19, 21, 23, 24, 25 with the widths 12, 1, 4, 2, 2, 2,
1, 1, 1 (each member starts where the one before ends), slot `i` starts at
buffer index `26 * i`, the terminator test of slot `i` reads the byte at
`26 * i + 12`, `d++` leads from slot `i` to slot `i + 1`, and the walk of the
terse listing starts at slot 1. -/
theorem C4_entry_is_26_bytes :
    sizeof_DirectoryEntry = 26 ∧
    Field.all.map offsetof = [0, 12, 13, 17, 19, 21, 23, 24, 25] ∧
    Field.all.map Field.width = [12, 1, 4, 2, 2, 2, 1, 1, 1] ∧
    (∀ i, slot_offset i = 26 * i) ∧
    (∀ buf i, entry_is_blocks_left buf (slot_offset i) =
      (read_u8 buf (26 * i + 12)).map (attr_test · ENTRY_ATTRIBUTE_BLOCKS_LEFT)) ∧
    (∀ i, slot_offset i + sizeof_DirectoryEntry = slot_offset (i + 1)) ∧
    (∀ buf, eos_ls false buf = (eos_ls_walk false buf (26 * 1) []).map Prod.snd) := by
  have hs : ∀ i, slot_offset i = 26 * i := by
    intro i
    rw [slot_offset, sizeof_DirectoryEntry_eq, Nat.mul_comm]
  refine ⟨by decide, by decide, by decide, hs, ?_, slot_offset_succ, ?_⟩
  · intro buf i
    rw [entry_is_blocks_left, offsetof_attributes, hs]
  · intro buf
    rw [eos_ls_terse_eq_walk, hs]

/-- C5: when slot `k ≥ 1` is the first slot with the BLOCKS_LEFT bit, lies
inside the buffer, and every slot before it has a 0x03 in its file name
field, the terse listing is exactly the decoded names of slots 1 to `k-1`, in
order, each followed by a line break: nothing for the volume label, the
terminator or any later slot. -/
theorem C5_terse_listing (buf : List Nat) (k : Nat) (hk : 1 ≤ k)
    (hin : slot_offset k + sizeof_DirectoryEntry ≤ buf.length)
    (hterm : attr_test (slot_attributes buf k) ENTRY_ATTRIBUTE_BLOCKS_LEFT = true)
    (hfirst : ∀ i, 1 ≤ i → i < k →
      attr_test (slot_attributes buf i) ENTRY_ATTRIBUTE_BLOCKS_LEFT = false)
    (hsent : ∀ i, 1 ≤ i → i < k → 3 ∈ filename_field buf (slot_offset i)) :
    eos_ls false buf = .ok (terse_lines buf 1 (k - 1)) := by
  have hk1 : 1 + (k - 1) = k := by omega
  have hw := eos_ls_walk_terse buf (k - 1) 1 []
    (fun j h1 h2 => ⟨hfirst j h1 (by omega), hsent j h1 (by omega)⟩)
    (by rw [hk1, offsetof_attributes]; rw [sizeof_DirectoryEntry_eq] at hin; omega)
    (by rw [hk1]; exact hterm)
  unfold eos_ls
  simp only [Bool.false_eq_true, if_false, pure_bind, hw, List.nil_append]
  rfl

/-- C5 on the sample directory (label `TESTVOL`, entry `FOO`, terminator):
the terse listing is `FOO` and a line break. -/
theorem C5_terse_listing_witness :
    eos_ls false sample_directory = .ok [70, 79, 79, 10] :=
  C5_terse_listing sample_directory 2 (by decide)
    (by rw [length_sample_directory]; decide)
    (by decide)
    (fun i h1 h2 => by
      have hi : i = 1 := by omega
      subst hi
      decide)
    (fun i h1 h2 => by
      have hi : i = 1 := by omega
      subst hi
      decide)

/-- C6 fails on the code: on the all-zero 7168-byte buffer (no slot has the
BLOCKS_LEFT bit) both listings end in a read of `buf[7168]`, one past the
array; the walk has no bound and nothing is rejected. -/
theorem C6_walk_leaves_the_buffer :
    zero_buf.length = BUF_SIZE ∧
    eos_ls false zero_buf = .error 7168 ∧ eos_ls true zero_buf = .error 7168 := by
  have hbl : entry_is_blocks_left zero_buf (slot_offset 1) = .ok false := by
    rw [entry_is_blocks_left_slot zero_buf 1 (by rw [length_zero_buf]; decide),
      slot_attributes_zero_buf]
    rfl
  exact ⟨length_zero_buf,
    eos_ls_terse_of_walk_error zero_buf 7168
      (eos_ls_walk_terse_error zero_buf _ 7168 [] hbl
        (eos_ls_filename_zero_buf _ _ (by decide))),
    eos_ls_verbose_of_label_error zero_buf 7168 (eos_ls_filename_zero_buf _ _ (by decide))⟩

/-- C7: when the 12-byte file name field of the entry at `d` contains 0x03,
`eos_ls_filename` writes exactly the bytes of the field before the first 0x03,
in order, and returns. -/
theorem C7_filename_stops_at_sentinel (buf : List Nat) (d : Nat) (out : List Nat)
    (h : 3 ∈ filename_field buf d) :
    eos_ls_filename buf d out = .ok (out ++ before_sentinel (filename_field buf d)) :=
  eos_ls_filename_eq buf d out h

/-- C7 on the field `"HELLO\x03"` and six zero bytes: the output is `HELLO`. -/
theorem C7_filename_stops_at_sentinel_witness :
    eos_ls_filename hello_field 0 [] = .ok [72, 69, 76, 76, 79] :=
  C7_filename_stops_at_sentinel hello_field 0 [] (by decide)

/-- C8 fails on the code: for slot 1 of `unterminated_directory`, whose name
field holds no 0x03, `eos_ls_filename` reports no error; it writes 13 bytes,
the twelve name bytes and the attribute byte 0x10, and stops at the low byte
of `start_block`, two bytes past the field.  On the all-zero buffer the scan
runs to `buf[7168]`, outside the buffer. -/
theorem C8_filename_scan_is_unbounded :
    3 ∉ filename_field unterminated_directory (slot_offset 1) ∧
    eos_ls_filename unterminated_directory (slot_offset 1) [] =
      .ok [65, 66, 67, 68, 69, 70, 71, 72, 73, 74, 75, 76, 16] ∧
    3 ∉ filename_field zero_buf (slot_offset 1) ∧
    eos_ls_filename zero_buf (slot_offset 1) [] = .error 7168 := by
  refine ⟨by decide, ?_, ?_, eos_ls_filename_zero_buf _ _ (by decide)⟩
  · unfold eos_ls_filename
    rw [eos_ls_filename_loop_eq unterminated_directory _ _ [] rfl (by decide)]
    rfl
  · intro h
    exact not_mem_drop_zero_buf _ (List.mem_of_mem_take h)

/-- C9: for 16-bit `blocks_used ≥ 1` and `last_block_bytes_used` the `int`
value of the used-byte expression is the exact integer
`(blocks_used - 1) * 1024 + last_block_bytes_used`, it lies in `[0, 2^31)`, and
`%u` prints that same number: no step overflows or wraps. -/
theorem C9_used_bytes_exact (blocks_used last_block_bytes_used : Nat)
    (h1 : 1 ≤ blocks_used) (h2 : blocks_used < 65536) (h3 : last_block_bytes_used < 65536) :
    used_bytes_int blocks_used last_block_bytes_used =
      ((blocks_used : Int) - 1) * 1024 + (last_block_bytes_used : Int) ∧
    0 ≤ used_bytes_int blocks_used last_block_bytes_used ∧
    used_bytes_int blocks_used last_block_bytes_used < 2147483648 ∧
    used_bytes_printed blocks_used last_block_bytes_used =
      (blocks_used - 1) * 1024 + last_block_bytes_used := by
  have e1 : wrap_int32 ((blocks_used : Int) - 1) = (blocks_used : Int) - 1 :=
    wrap_int32_of_range _ (by omega) (by omega)
  have e2 : wrap_int32 (((blocks_used : Int) - 1) * 1024) = ((blocks_used : Int) - 1) * 1024 :=
    wrap_int32_of_range _ (by omega) (by omega)
  have e3 : wrap_int32 (((blocks_used : Int) - 1) * 1024 + (last_block_bytes_used : Int)) =
      ((blocks_used : Int) - 1) * 1024 + (last_block_bytes_used : Int) :=
    wrap_int32_of_range _ (by omega) (by omega)
  have hv : used_bytes_int blocks_used last_block_bytes_used =
      ((blocks_used : Int) - 1) * 1024 + (last_block_bytes_used : Int) := by
    unfold used_bytes_int
    simp only [BLOCK_SIZE, Nat.cast_ofNat, e1, e2, e3]
  refine ⟨hv, by omega, by omega, ?_⟩
  unfold used_bytes_printed to_uint32
  rw [hv]
  omega

/-- C9 at `blocks_used = 3`, `last_block_bytes_used = 100`: the figure is 2148;
at `blocks_used = 2`, `last_block_bytes_used = 50` it is 1074. -/
theorem C9_used_bytes_exact_witness :
    used_bytes_printed 3 100 = 2148 ∧ used_bytes_printed 2 50 = 1074 :=
  ⟨(C9_used_bytes_exact 3 100 (by decide) (by decide) (by decide)).2.2.2,
   (C9_used_bytes_exact 2 50 (by decide) (by decide) (by decide)).2.2.2⟩

/-- C10 fails on the code: with `blocks_used = 0` the `int` expression is
`-1024 + last_block_bytes_used`, which `%5u` prints as an unsigned number; the
verbose row of the empty file `FOO` reads
`----U---          9  4294966272 / 4096   84-05-06 FOO`. -/
theorem C10_zero_blocks_used_wraps :
    used_bytes_int 0 0 = -1024 ∧ used_bytes_printed 0 0 = 4294966272 ∧
    eos_ls_verbose empty_file_directory (slot_offset 1) [] =
      .ok [45, 45, 45, 45, 85, 45, 45, 45, 32, 32, 32, 32, 32, 32, 32, 32, 32, 32, 57, 32,
        32, 52, 50, 57, 52, 57, 54, 54, 50, 55, 50, 32, 47, 32, 52, 48, 57, 54, 32, 32,
        32, 56, 52, 45, 48, 53, 45, 48, 54, 32, 70, 79, 79, 10] :=
  ⟨by decide, by decide,
    (eos_ls_verbose_eq empty_file_directory (slot_offset 1) []
      (by rw [length_empty_file_directory]; decide) (by decide)).trans rfl⟩

/-- C11: each of the eight predicates reads the attribute byte of the entry
and nothing else, and returns true exactly when `(a & mask) == mask` for its
own mask; as the masks are the powers of two 0x01 .. 0x80, the predicate for
bit `k` is the value of bit `k` of the byte, whatever the other seven bits
are. -/
theorem C11_attribute_predicates (buf : List Nat) (d a : Nat) :
    entry_is_blocks_left buf d =
      (read_u8 buf (d + offsetof .attributes)).map
        (fun a => decide (a &&& ENTRY_ATTRIBUTE_BLOCKS_LEFT = ENTRY_ATTRIBUTE_BLOCKS_LEFT)) ∧
    entry_is_exec_protect buf d =
      (read_u8 buf (d + offsetof .attributes)).map
        (fun a => decide (a &&& ENTRY_ATTRIBUTE_EXEC_PROTECT = ENTRY_ATTRIBUTE_EXEC_PROTECT)) ∧
    entry_is_deleted buf d =
      (read_u8 buf (d + offsetof .attributes)).map
        (fun a => decide (a &&& ENTRY_ATTRIBUTE_DELETED = ENTRY_ATTRIBUTE_DELETED)) ∧
    entry_is_system_file buf d =
      (read_u8 buf (d + offsetof .attributes)).map
        (fun a => decide (a &&& ENTRY_ATTRIBUTE_SYSTEM_FILE = ENTRY_ATTRIBUTE_SYSTEM_FILE)) ∧
    entry_is_user_file buf d =
      (read_u8 buf (d + offsetof .attributes)).map
        (fun a => decide (a &&& ENTRY_ATTRIBUTE_USER_FILE = ENTRY_ATTRIBUTE_USER_FILE)) ∧
    entry_is_read_protected buf d =
      (read_u8 buf (d + offsetof .attributes)).map
        (fun a => decide (a &&& ENTRY_ATTRIBUTE_READ_PROTECT = ENTRY_ATTRIBUTE_READ_PROTECT)) ∧
    entry_is_write_protected buf d =
      (read_u8 buf (d + offsetof .attributes)).map
        (fun a => decide (a &&& ENTRY_ATTRIBUTE_WRITE_PROTECT = ENTRY_ATTRIBUTE_WRITE_PROTECT)) ∧
    entry_is_locked buf d =
      (read_u8 buf (d + offsetof .attributes)).map
        (fun a => decide (a &&& ENTRY_ATTRIBUTE_LOCKED = ENTRY_ATTRIBUTE_LOCKED)) ∧
    decide (a &&& ENTRY_ATTRIBUTE_BLOCKS_LEFT = ENTRY_ATTRIBUTE_BLOCKS_LEFT) = a.testBit 0 ∧
    decide (a &&& ENTRY_ATTRIBUTE_EXEC_PROTECT = ENTRY_ATTRIBUTE_EXEC_PROTECT) = a.testBit 1 ∧
    decide (a &&& ENTRY_ATTRIBUTE_DELETED = ENTRY_ATTRIBUTE_DELETED) = a.testBit 2 ∧
    decide (a &&& ENTRY_ATTRIBUTE_SYSTEM_FILE = ENTRY_ATTRIBUTE_SYSTEM_FILE) = a.testBit 3 ∧
    decide (a &&& ENTRY_ATTRIBUTE_USER_FILE = ENTRY_ATTRIBUTE_USER_FILE) = a.testBit 4 ∧
    decide (a &&& ENTRY_ATTRIBUTE_READ_PROTECT = ENTRY_ATTRIBUTE_READ_PROTECT) = a.testBit 5 ∧
    decide (a &&& ENTRY_ATTRIBUTE_WRITE_PROTECT = ENTRY_ATTRIBUTE_WRITE_PROTECT) = a.testBit 6 ∧
    decide (a &&& ENTRY_ATTRIBUTE_LOCKED = ENTRY_ATTRIBUTE_LOCKED) = a.testBit 7 := by
  have hf : ∀ mask, (fun x => attr_test x mask) = (fun x => decide (x &&& mask = mask)) :=
    fun mask => funext (fun x => attr_test_eq_decide x mask)
  have hb : ∀ k, decide (a &&& 2 ^ k = 2 ^ k) = a.testBit k :=
    fun k => (attr_test_eq_decide a (2 ^ k)).symm.trans (attr_test_two_pow a k)
  refine ⟨?_, ?_, ?_, ?_, ?_, ?_, ?_, ?_, hb 0, hb 1, hb 2, hb 3, hb 4, hb 5, hb 6, hb 7⟩
  · rw [entry_is_blocks_left, hf]
  · rw [entry_is_exec_protect, hf]
  · rw [entry_is_deleted, hf]
  · rw [entry_is_system_file, hf]
  · rw [entry_is_user_file, hf]
  · rw [entry_is_read_protected, hf]
  · rw [entry_is_write_protected, hf]
  · rw [entry_is_locked, hf]

/-- C12: modelling the image as a finite byte sequence, each loader returns,
and returns failure exactly when the image is shorter than 8192 bytes, which
is exactly when some byte range the load requires for a block in 1..7 (flat:
1024 bytes at `b*1024`; interleaved: 512 bytes at the primary and at the
secondary offset of `b`) is not fully inside the image. -/
theorem C12_loader_fails_iff_short (image buf : List Nat) :
    (∃ r, read_directory_sectors_ddp image buf = some r ∧
      (r.ok = false ↔ image.length < 8192)) ∧
    (∃ r, read_directory_sectors_dsk image buf = some r ∧
      (r.ok = false ↔ image.length < 8192)) ∧
    (image.length < 8192 ↔
      ∃ b, 1 ≤ b ∧ b ≤ 7 ∧ ¬ (b * BLOCK_SIZE + BLOCK_SIZE ≤ image.length)) ∧
    (image.length < 8192 ↔
      ∃ b, 1 ≤ b ∧ b ≤ 7 ∧ ¬ (dsk_o1 b + DISK_SECTOR_SIZE ≤ image.length ∧
        dsk_o2 b + DISK_SECTOR_SIZE ≤ image.length)) := by
  refine ⟨ddp_fails_iff_short image buf, dsk_fails_iff_short image buf, ?_, ?_⟩
  · simp only [BLOCK_SIZE]
    constructor
    · intro h; exact ⟨7, by omega, by omega, by omega⟩
    · rintro ⟨b, h1, h7, h⟩; omega
  · simp only [DISK_SECTOR_SIZE]
    constructor
    · intro h
      refine ⟨5, by omega, by omega, ?_⟩
      rw [show dsk_o1 5 = 5120 from by decide, show dsk_o2 5 = 7680 from by decide]
      omega
    · rintro ⟨b, h1, h7, h⟩
      have ho := dsk_offsets_end b h1 h7
      omega

/-- C13 fails on the code: for `eos-ls t.ddp` on a 2048-byte flat image whose
block 1 holds the sample directory the load fails at block 3 (diagnostic
`Block #3`), yet `main` does not look at the value of
`read_directory_sectors`: it lists `FOO` from the partly filled buffer and
exits with status 0. -/
theorem C13_main_ignores_failed_load :
    (read_directory_sectors .DDP short_ddp_image (List.replicate BUF_SIZE 0)).map
        (fun r => r.ok) = some false ∧
    main short_image_fopen [[101, 111, 115, 45, 108, 115], [116, 46, 100, 100, 112]] =
      some (.ok (ExitResult.mk 0 [66, 108, 111, 99, 107, 32, 35, 51, 10, 70, 79, 79, 10])) := by
  refine ⟨by rw [read_directory_sectors_short_ddp_image]; rfl, ?_⟩
  have hargs : main_args short_image_fopen
      (List.drop 1 [[101, 111, 115, 45, 108, 115], [116, 46, 100, 100, 112]]) false .UNKNOWN
      none = .ok (false, .DDP, some short_ddp_image) := rfl
  exact main_lists_after_any_load short_image_fopen
    [[101, 111, 115, 45, 108, 115], [116, 46, 100, 100, 112]] false .DDP short_ddp_image
    _ _ (by decide) hargs read_directory_sectors_short_ddp_image
    eos_ls_terse_sample_directory

/-- C14: every offset the loaders hand to `fseek` is at least 1024, and the
outcome of a load (return value, buffer, diagnostic) is the same for two
images that differ only in their first 1024 bytes: no byte of block 0 reaches
the directory buffer. -/
theorem C14_reads_start_at_1024 (image block0 block1 rest buf : List Nat)
    (h0 : block0.length = 1024) (h1 : block1.length = 1024) :
    (read_directory_sectors_dsk_seeks image 8 1).all (fun o => decide (1024 ≤ o)) = true ∧
    (read_directory_sectors_ddp_seeks image 8 1).all (fun o => decide (1024 ≤ o)) = true ∧
    read_directory_sectors_dsk (block0 ++ rest) buf =
      read_directory_sectors_dsk (block1 ++ rest) buf ∧
    read_directory_sectors_ddp (block0 ++ rest) buf =
      read_directory_sectors_ddp (block1 ++ rest) buf :=
  ⟨dsk_seeks_ge image 8 1 (by decide), ddp_seeks_ge image 8 1 (by decide),
    dsk_loop_congr _ _ (fread_at_block0 block0 block1 rest 512 h0 h1) 8 1 0 buf (by decide),
    ddp_loop_congr _ _ (fread_at_block0 block0 block1 rest 1024 h0 h1) 8 1 0 buf (by decide)⟩

/-- C14 on the sector-numbered image and on two images whose block 0 is all
0x00 and all 0xFF: the interleaved loader seeks to 1024, 3584, 3072, 1536,
5120, 7680, 7168, 5632, and both images load alike. -/
theorem C14_reads_start_at_1024_witness :
    (read_directory_sectors_dsk_seeks sector_tagged_image 8 1).all
        (fun o => decide (1024 ≤ o)) = true ∧
    read_directory_sectors_ddp (List.replicate 1024 0 ++ sample_directory) zero_buf =
      read_directory_sectors_ddp (List.replicate 1024 255 ++ sample_directory) zero_buf :=
  ⟨(C14_reads_start_at_1024 sector_tagged_image (List.replicate 1024 0)
      (List.replicate 1024 255) sample_directory zero_buf (List.length_replicate _ _)
      (List.length_replicate _ _)).1,
   (C14_reads_start_at_1024 sector_tagged_image (List.replicate 1024 0)
      (List.replicate 1024 255) sample_directory zero_buf (List.length_replicate _ _)
      (List.length_replicate _ _)).2.2.2⟩

/-- C15 as stated fails: the mixed-case name `disk.Dsk` is not recognised,
and `a.dsk.txt`, whose extension is `.txt`, selects DSK. -/
theorem C15_mixed_case_is_unknown :
    set_image_mode [100, 105, 115, 107, 46, 68, 115, 107] = .UNKNOWN ∧
    set_image_mode [97, 46, 100, 115, 107, 46, 116, 120, 116] = .DSK := by
  decide

/-- C15 amended: a file name ending in `.dsk` or `.DSK` selects DSK; a file
name ending in `.ddp` or `.DDP` that contains neither `.dsk` nor `.DSK`
selects DDP; a file name that contains none of `.dsk`, `.DSK`, `.ddp`, `.DDP`
is UNKNOWN. -/
theorem C15_mode_by_exact_extension (stem fn : List Nat) :
    set_image_mode (stem ++ dot_dsk) = .DSK ∧ set_image_mode (stem ++ dot_DSK) = .DSK ∧
    (strstr (stem ++ dot_ddp) dot_dsk = false → strstr (stem ++ dot_ddp) dot_DSK = false →
      set_image_mode (stem ++ dot_ddp) = .DDP) ∧
    (strstr (stem ++ dot_DDP) dot_dsk = false → strstr (stem ++ dot_DDP) dot_DSK = false →
      set_image_mode (stem ++ dot_DDP) = .DDP) ∧
    (strstr fn dot_dsk = false → strstr fn dot_DSK = false →
      strstr fn dot_ddp = false → strstr fn dot_DDP = false →
      set_image_mode fn = .UNKNOWN) := by
  refine ⟨?_, ?_, ?_, ?_, ?_⟩
  · simp only [set_image_mode, strstr_append_self, Bool.true_or, if_true]
  · simp only [set_image_mode, strstr_append_self, Bool.or_true, if_true]
  · intro h1 h2
    simp only [set_image_mode, h1, h2, strstr_append_self, Bool.or_self,
      Bool.false_eq_true, if_false, Bool.true_or, if_true]
  · intro h1 h2
    simp only [set_image_mode, h1, h2, strstr_append_self, Bool.or_self,
      Bool.false_eq_true, if_false, Bool.or_true, if_true]
  · intro h1 h2 h3 h4
    simp only [set_image_mode, h1, h2, h3, h4, Bool.or_self, Bool.false_eq_true, if_false]

/-- C15 amended on the stems `disk` and `a.dsk` and the name `disk.Dsk`:
`disk.dsk`, `disk.DSK` and `a.dsk.dsk` select DSK, `disk.ddp` and `disk.DDP`
select DDP, `disk.Dsk` is UNKNOWN. -/
theorem C15_mode_by_exact_extension_witness :
    set_image_mode [100, 105, 115, 107, 46, 100, 115, 107] = .DSK ∧
    set_image_mode [100, 105, 115, 107, 46, 68, 83, 75] = .DSK ∧
    set_image_mode [97, 46, 100, 115, 107, 46, 100, 115, 107] = .DSK ∧
    set_image_mode [100, 105, 115, 107, 46, 100, 100, 112] = .DDP ∧
    set_image_mode [100, 105, 115, 107, 46, 68, 68, 80] = .DDP ∧
    set_image_mode [100, 105, 115, 107, 46, 68, 115, 107] = .UNKNOWN :=
  have h := C15_mode_by_exact_extension [100, 105, 115, 107]
    [100, 105, 115, 107, 46, 68, 115, 107]
  have h2 := C15_mode_by_exact_extension [97, 46, 100, 115, 107]
    [100, 105, 115, 107, 46, 68, 115, 107]
  ⟨h.1, h.2.1, h2.1, h.2.2.1 (by decide) (by decide), h.2.2.2.1 (by decide) (by decide),
    h.2.2.2.2 (by decide) (by decide) (by decide) (by decide)⟩

/-- C16 fails on the code: for `total_blocks = 4194305`, within the range the
usage text allows, the 32-bit product `total_blocks * 1024` wraps to 1024, the
zero byte is written at offset 1023 and the file is 1024 bytes long, not
4294968320; for `total_blocks = 0` the byte lands at offset 4294967295. -/
theorem C16_create_image_wraps :
    MakeImage.create_image (MakeImage.Env.mk false false 0) 4194305 =
      MakeImage.CreateResult.mk 1023 (some 1024) ∧
    4194305 * 1024 = 4294968320 ∧
    MakeImage.create_image (MakeImage.Env.mk false false 0) 0 =
      MakeImage.CreateResult.mk 4294967295 (some 4294967296) := by
  decide

/-- C17: on a well-formed directory buffer (slot `k ≥ 1` is the first with the
BLOCKS_LEFT bit and lies inside the buffer, the label and every slot before
`k` have a 0x03 in their name field) the verbose listing ends with the line
` %10u BYTES FREE` showing `allocated_blocks * 1024` of slot `k`, exact for
every 16-bit `allocated_blocks`; the terse listing is the name lines only. -/
theorem C17_free_space_line (buf : List Nat) (k : Nat) (hk : 1 ≤ k)
    (hin : slot_offset k + sizeof_DirectoryEntry ≤ buf.length)
    (hterm : attr_test (slot_attributes buf k) ENTRY_ATTRIBUTE_BLOCKS_LEFT = true)
    (hfirst : ∀ i, 1 ≤ i → i < k →
      attr_test (slot_attributes buf i) ENTRY_ATTRIBUTE_BLOCKS_LEFT = false)
    (hsent : ∀ i, i < k → 3 ∈ filename_field buf (slot_offset i))
    (h16 : u16_at buf (slot_offset k + offsetof .allocated_blocks) < 65536) :
    eos_ls true buf =
      .ok (volume_text ++ before_sentinel (filename_field buf (slot_offset 0)) ++ [10, 10]
        ++ verbose_lines buf 1 (k - 1) ++ [10, 32]
        ++ fmt_u 10 (u16_at buf (slot_offset k + offsetof .allocated_blocks) * 1024)
        ++ bytes_free_text) ∧
    allocated_bytes_printed (u16_at buf (slot_offset k + offsetof .allocated_blocks)) =
      u16_at buf (slot_offset k + offsetof .allocated_blocks) * 1024 ∧
    eos_ls false buf = .ok (terse_lines buf 1 (k - 1)) := by
  have h := eos_ls_verbose_listing buf k hk hin hterm hfirst hsent
  rw [allocated_bytes_printed_eq _ h16] at h
  exact ⟨h, allocated_bytes_printed_eq _ h16,
    eos_ls_terse_listing buf k hk hin hterm hfirst (fun i _ h2 => hsent i h2)⟩

/-- C17 on the sample directory, whose terminator has `allocated_blocks = 100`:
the verbose listing ends with `     102400 BYTES FREE`, the terse listing is
`FOO` and a line break. -/
theorem C17_free_space_line_witness :
    eos_ls true sample_directory =
      .ok [10, 86, 79, 76, 85, 77, 69, 58, 32, 84, 69, 83, 84, 86, 79, 76, 10, 10,
        45, 45, 45, 45, 85, 45, 45, 45, 32, 32, 32, 32, 32, 32, 32, 32, 32, 32, 57, 32,
        32, 32, 49, 48, 55, 52, 32, 47, 32, 52, 48, 57, 54, 32, 32,
        32, 56, 52, 45, 48, 53, 45, 48, 54, 32, 70, 79, 79, 10,
        10, 32, 32, 32, 32, 32, 49, 48, 50, 52, 48, 48,
        32, 66, 89, 84, 69, 83, 32, 70, 82, 69, 69, 10, 10] ∧
    eos_ls false sample_directory = .ok [70, 79, 79, 10] :=
  have h := C17_free_space_line sample_directory 2 (by decide)
    (by rw [length_sample_directory]; decide) (by decide)
    (fun i h1 h2 => by
      have hi : i = 1 := by omega
      subst hi
      decide)
    (fun i h2 => by
      have hi : i = 0 ∨ i = 1 := by omega
      rcases hi with hi | hi <;> subst hi <;> decide)
    (by decide)
  ⟨h.1.trans rfl, h.2.2⟩

/-- C18: the flag mask written by `eos_ls_verbose` is the image of the
attribute byte under `flag_mask`; it has 8 characters, position `i` holding
the `i`-th of the letters `L X D S U R W K` when bit `i` of the byte is set and
`-` otherwise; two attribute bytes with the same mask are equal. -/
theorem C18_flag_mask (buf : List Nat) (d a b : Nat) (ha : a < 256) (hb : b < 256) :
    eos_ls_flags buf d = (read_u8 buf (d + offsetof .attributes)).map flag_mask ∧
    (flag_mask a).length = 8 ∧
    flag_mask a =
      (List.range 8).map (fun i => if a.testBit i then flag_letters.getD i 0 else 45) ∧
    (flag_mask a = flag_mask b → a = b) :=
  ⟨eos_ls_flags_eq_map buf d, rfl, flag_mask_eq_bits a, flag_mask_injective a b ha hb⟩

/-- C18 on the attribute byte 0x10 (USER_FILE) of `FOO` in the sample
directory: the mask is `----U---`. -/
theorem C18_flag_mask_witness :
    eos_ls_flags sample_directory (slot_offset 1) =
      (read_u8 sample_directory (slot_offset 1 + offsetof .attributes)).map flag_mask ∧
    flag_mask 16 = [45, 45, 45, 45, 85, 45, 45, 45] :=
  ⟨(C18_flag_mask sample_directory (slot_offset 1) 16 16 (by decide) (by decide)).1,
   (C18_flag_mask sample_directory (slot_offset 1) 16 16 (by decide) (by decide)).2.2.1⟩

/-- C19: over the blocks 1..7 the interleave formula yields 14 offsets that
are multiples of 512 and pairwise distinct, and each 512-byte range ends at
or before byte 8192: no two half-block reads overlap. -/
theorem C19_interleave_offsets_disjoint :
    dsk_offsets_1_to_7.length = 14 ∧
    dsk_offsets_1_to_7.all (fun o => decide (o % DISK_SECTOR_SIZE = 0)) = true ∧
    dsk_offsets_1_to_7.all (fun o => decide (o + DISK_SECTOR_SIZE ≤ 8192)) = true ∧
    dsk_offsets_1_to_7.Nodup ∧
    dsk_offsets_1_to_7 =
      [1024, 3584, 2048, 512, 3072, 1536, 4096, 6656, 5120, 7680, 6144, 4608, 7168, 5632] := by
  have h : dsk_offsets_1_to_7 =
      [1024, 3584, 2048, 512, 3072, 1536, 4096, 6656, 5120, 7680, 6144, 4608, 7168, 5632] := by
    decide
  rw [h]
  decide

end EosTools
